import Mathlib

/-!
Rocket server connection core.

A shallow embedding of `RocketServerConnection.cpp` (namespace
`apache::thrift::rocket`), followed by the test utilities of
`ClientServerTestUtil.cpp` and the kernel TLS probe of `Utils.cpp`.  The connection
object becomes a record, every member function a function on that record.  Calls that
leave the translated unit (the frame handler, the stream subscribers, the event base, the
socket, the connection manager) are recorded, in program order, in the `trace` field.
What a stream subscriber does in turn when demand reaches it (frames sent, its own entry
removed when the stream ends) follows the specification of the subscriber; the source it
pulls from is a parameter.

Conventions
* `socket_` is a `unique_ptr`: `none` after `socket_.reset()`.  A member call through a
  null `socket_` has no defined behaviour, so the functions that dereference it return
  `Option` and yield `none` there.
* `DCHECK`s are compiled out (release semantics) and `DestructorGuard` only delays the
  deletion requested by `destroy()`, which is recorded as an event.
* `inflight_` is only written by `incInflightRequests` / `decInflightRequests`, which live
  outside this unit; no function below assigns it.
* `std::unordered_map` is an association list with `emplace` / `find` / `erase`;
  iteration order is list order.
-/

namespace Rocket

/-- Stream identifiers are unsigned 32-bit integers; `0` denotes the connection itself. -/
abbrev StreamId := Nat

/-- Byte strings carried in payloads. -/
abbrev Bytes := List Char

/-- Modelled from the spec: the `FrameType` enumeration (declared in the framing headers):
"`SETUP`, `REQUEST_RESPONSE`, `REQUEST_FNF`, `REQUEST_STREAM`, `REQUEST_N`, `CANCEL`,
`PAYLOAD`, `ERROR`, plus any further protocol frame reserved but unhandled". -/
inductive FrameType
  | SETUP
  | REQUEST_RESPONSE
  | REQUEST_FNF
  | REQUEST_STREAM
  | REQUEST_N
  | CANCEL
  | PAYLOAD
  | ERROR
  | RESERVED (code : Nat)
  deriving DecidableEq, Repr

/-- Modelled from the spec: the closed set of `ErrorCode`s (declared in the framing
headers). -/
inductive ErrorCode
  | INVALID_SETUP
  | UNSUPPORTED_SETUP
  | REJECTED_SETUP
  | CONNECTION_ERROR
  | CONNECTION_CLOSE
  | APPLICATION_ERROR
  | INVALID
  | CANCELED
  deriving DecidableEq, Repr

/-- Modelled from the spec: `ConnectionState` (declared in the connection header):
"`ALIVE → CLOSING → CLOSED`". -/
inductive ConnectionState
  | ALIVE
  | CLOSING
  | CLOSED
  deriving DecidableEq, Repr

/-- Position of a state in the order `ALIVE < CLOSING < CLOSED`. -/
def ConnectionState.rank : ConnectionState → Nat
  | ALIVE => 0
  | CLOSING => 1
  | CLOSED => 2

/-- The two `TTransportExceptionType` values used by the connection. -/
inductive TTransportExceptionType
  | INTERRUPTED
  | TIMED_OUT
  deriving DecidableEq, Repr

/-- The exception objects built by `folly::make_exception_wrapper<...>` in this unit,
with their constructor arguments. -/
inductive Exception
  | RocketException (code : ErrorCode) (msg : String)
  | TTransportException (type : TTransportExceptionType) (msg : String)
  | runtime_error (msg : String)
  deriving DecidableEq, Repr

/-- A `folly::exception_wrapper`: empty (`none`, converts to `false`) or holding an
exception. -/
abbrev exception_wrapper := Option Exception

/-- A payload: optional metadata plus data. -/
structure Payload where
  metadata : Option Bytes
  data : Bytes
  deriving DecidableEq, Repr

/-- An inbound frame as seen by `handleFrame`: the header fields read through the
cursor and the body fields the typed frame wrappers expose. -/
structure Frame where
  streamId : StreamId
  frameType : FrameType
  hasFollows : Bool
  requestN : Nat
  payload : Payload
  deriving DecidableEq, Repr

/-- A serialized outbound frame handed to `send`. -/
inductive IOBuf
  | ErrorFrame (streamId : StreamId) (code : ErrorCode) (message : String)
  | PayloadFrame (streamId : StreamId) (payload : Payload) (next complete : Bool)
  deriving DecidableEq, Repr

/-- The request kinds a frame context can carry. -/
inductive RequestKind
  | RESPONSE
  | FNF
  | STREAM
  deriving DecidableEq, Repr

/-- Modelled from the spec: `RocketServerFrameContext` (its own unit is not among the
sources): "carries a back-reference to the ConnectionCore and the stream's ID, plus the
accumulated fragments".  The back-reference is the connection argument of the functions
below. -/
structure RocketServerFrameContext where
  streamId : StreamId
  kind : Option RequestKind
  initialRequestN : Nat
  fragments : List Payload
  deriving DecidableEq, Repr

/-- A `RocketServerStreamSubscriber` as built by `createStreamSubscriber`: the moved-in
context and the initial demand. -/
structure RocketServerStreamSubscriber where
  context : RocketServerFrameContext
  initialRequestN : Nat
  deriving DecidableEq, Repr

/-- Calls that leave the unit, in program order. -/
inductive Event
  | runInLoop
  | cancelLoopCallback
  | writeChain (bufs : List IOBuf)
  | cancel (streamId : StreamId)
  | request (streamId : StreamId) (n : Nat)
  | handleSetupFrame (streamId : StreamId)
  | handleRequestResponseFrame (streamId : StreamId) (fragments : List Payload)
  | handleRequestFnfFrame (streamId : StreamId) (fragments : List Payload)
  | handleRequestStreamFrame (streamId : StreamId) (initialRequestN : Nat)
      (fragments : List Payload)
  | onPayloadFrame (streamId : StreamId) (fragment : Payload)
  | removeConnection
  | destroy
  deriving DecidableEq, Repr

/-- How a source ends a stream: `onComplete`, or `onError` with the error's code and
message. -/
inductive StreamEnd
  | complete
  | error (code : ErrorCode) (message : String)
  deriving DecidableEq, Repr

/-- What a source signals to its subscriber when it is pulled: `onNext` for each item, in
order, then possibly the end of the stream. -/
structure Emission where
  items : List Payload
  ending : Option StreamEnd
  deriving DecidableEq, Repr

/-- Library and header items the unit uses but does not define. -/
structure Externals where
  /-- The text of `folly::exception_wrapper::what()` for a held exception. -/
  what : Exception → String
  /-- The numeric value `static_cast<uint8_t>(frameType)`. -/
  frameTypeCode : FrameType → Nat
  /-- The application source behind a stream subscriber: what it signals when the
  subscriber pulls from it on `request(n)`, given the calls made so far, the stream and
  `n`. -/
  pull : List Event → StreamId → Nat → Emission

/-- The transport: only whether a read callback is installed matters here. -/
structure Socket where
  readCB : Bool
  deriving DecidableEq, Repr

/-- The write batcher: queued buffers and whether the loop callback is scheduled. -/
structure BatchWriteLoopCallback where
  bufQueue : List IOBuf
  scheduled : Bool
  deriving DecidableEq, Repr

/-- The members of `RocketServerConnection`. -/
structure RocketServerConnection where
  socket_ : Option Socket
  state_ : ConnectionState
  setupFrameReceived_ : Bool
  inflight_ : Nat
  streams_ : List (StreamId × RocketServerStreamSubscriber)
  partialFrames_ : List (StreamId × RocketServerFrameContext)
  batchWriteLoopCallback_ : BatchWriteLoopCallback
  manager : Bool
  trace : List Event
  deriving DecidableEq, Repr

/-- The `emplace` of `std::unordered_map`: inserts unless the key is present. -/
def emplace {α : Type} (m : List (StreamId × α)) (k : StreamId) (v : α) :
    List (StreamId × α) :=
  if (m.lookup k).isSome then m else m ++ [(k, v)]

/-- The `erase` of `std::unordered_map` by key. -/
def erase {α : Type} (m : List (StreamId × α)) (k : StreamId) : List (StreamId × α) :=
  m.filter (fun p => p.1 != k)

/-- Overwrites the value stored under a key (assignment through `it->second`). -/
def assign {α : Type} (m : List (StreamId × α)) (k : StreamId) (v : α) :
    List (StreamId × α) :=
  m.map (fun p => if p.1 = k then (k, v) else p)

/-- Modelled from the spec: the state after construction.  The constructor in the unit
installs the parser as read callback; the member initialisers are in the header:
`ALIVE`, no SETUP seen, nothing in flight, empty maps, empty write batch.  `managed`
tells whether a connection manager has been attached (`addConnection`). -/
def RocketServerConnection.create (managed : Bool) : RocketServerConnection :=
  { socket_ := some { readCB := true }
    state_ := ConnectionState.ALIVE
    setupFrameReceived_ := false
    inflight_ := 0
    streams_ := []
    partialFrames_ := []
    batchWriteLoopCallback_ := { bufQueue := [], scheduled := false }
    manager := managed
    trace := [] }

/-- Appends an event to the trace. -/
def emit (c : RocketServerConnection) (e : Event) : RocketServerConnection :=
  { c with trace := c.trace ++ [e] }

/-- The `batchWriteLoopCallback_.enqueueWrite(data)` call. -/
def enqueueWrite (c : RocketServerConnection) (data : IOBuf) : RocketServerConnection :=
  { c with batchWriteLoopCallback_ :=
      { c.batchWriteLoopCallback_ with
        bufQueue := c.batchWriteLoopCallback_.bufQueue ++ [data] } }

/-- The `evb_.runInLoop(&batchWriteLoopCallback_, true)` call: the callback becomes
scheduled. -/
def runInLoop (c : RocketServerConnection) : RocketServerConnection :=
  emit { c with batchWriteLoopCallback_ :=
           { c.batchWriteLoopCallback_ with scheduled := true } } Event.runInLoop

/-- The `batchWriteLoopCallback_.cancelLoopCallback()` call. -/
def cancelLoopCallback (c : RocketServerConnection) : RocketServerConnection :=
  emit { c with batchWriteLoopCallback_ :=
           { c.batchWriteLoopCallback_ with scheduled := false } } Event.cancelLoopCallback

/-- Modelled from the spec: `flushPendingWrites` (defined in the header): the queued
buffers are handed to the socket as one write and the queue is left empty. -/
def flushPendingWrites (c : RocketServerConnection) : RocketServerConnection :=
  emit { c with batchWriteLoopCallback_ :=
           { c.batchWriteLoopCallback_ with bufQueue := [] } }
    (Event.writeChain c.batchWriteLoopCallback_.bufQueue)

/-- Modelled from the spec: `removeConnection` of the connection manager: "deregisters
from the manager". -/
def removeConnection (c : RocketServerConnection) : RocketServerConnection :=
  emit { c with manager := false } Event.removeConnection

/-- `RocketServerConnection::send`. -/
def send (c : RocketServerConnection) (data : IOBuf) : RocketServerConnection :=
  if c.state_ ≠ ConnectionState.ALIVE then c
  else
    let c1 := enqueueWrite c data
    if ¬ c1.batchWriteLoopCallback_.scheduled then runInLoop c1 else c1

/-- The sweep loop of `closeIfNeeded`: cancel the subscriber at the iterator, erase it,
continue with the next entry. -/
def cancelStreams : List (StreamId × RocketServerStreamSubscriber) →
    RocketServerConnection → RocketServerConnection
  | [], c => { c with streams_ := [] }
  | (id, _) :: rest, c => cancelStreams rest (emit { c with streams_ := rest } (Event.cancel id))

/-- `RocketServerConnection::closeIfNeeded`. -/
def closeIfNeeded (c : RocketServerConnection) : RocketServerConnection :=
  if c.state_ ≠ ConnectionState.CLOSING ∨ c.inflight_ ≠ c.streams_.length then c
  else
    let c1 := cancelStreams c.streams_ c
    let c2 := if c1.batchWriteLoopCallback_.scheduled then
        flushPendingWrites (cancelLoopCallback c1) else c1
    let c3 := { c2 with state_ := ConnectionState.CLOSED }
    let c4 := if c3.manager then removeConnection c3 else c3
    emit { c4 with socket_ := none } Event.destroy

/-- Modelled from the spec: `RocketServerFrameContext::sendError`: "synthesize the
appropriate frame, hand to WriteBatcher", i.e. an `ERROR` frame for the context's stream
passed to `send`. -/
def sendError (c : RocketServerConnection) (streamId : StreamId) (code : ErrorCode)
    (message : String) : RocketServerConnection :=
  send c (IOBuf.ErrorFrame streamId code message)

/-- Modelled from the spec: `RocketServerFrameContext::sendPayload`: "synthesize the
appropriate frame, hand to WriteBatcher", i.e. a `PAYLOAD` frame for the context's stream
passed to `send`. -/
def sendPayload (c : RocketServerConnection) (streamId : StreamId) (payload : Payload)
    (next complete : Bool) : RocketServerConnection :=
  send c (IOBuf.PayloadFrame streamId payload next complete)

/-- Modelled from the spec: what `RocketServerStreamSubscriber` does with the signals of
its source: "`onNext(payload)`: emits `PAYLOAD(next, !complete)`", "`onComplete`: emits
`PAYLOAD(complete)` with empty body; transitions to `Terminal`; removes from registry",
"`onError(e)`: emits `ERROR(code,msg)`; transitions to `Erred`; removes from registry". -/
def RocketServerStreamSubscriber.deliver (c : RocketServerConnection) (streamId : StreamId)
    (e : Emission) : RocketServerConnection :=
  let c1 := e.items.foldl (fun acc item => sendPayload acc streamId item true false) c
  match e.ending with
  | none => c1
  | some StreamEnd.complete =>
    let c2 := sendPayload c1 streamId { metadata := none, data := [] } false true
    { c2 with streams_ := erase c2.streams_ streamId }
  | some (StreamEnd.error code message) =>
    let c2 := sendError c1 streamId code message
    { c2 with streams_ := erase c2.streams_ streamId }

/-- Modelled from the spec: `RocketServerStreamSubscriber::request` (the subscriber's unit
is not among the sources): "`request(n)`: adds `n` credits; if `Producing` conditions met,
pulls from source".  The call is recorded, then the signals of the source are delivered. -/
def RocketServerStreamSubscriber.request (ext : Externals) (c : RocketServerConnection)
    (streamId : StreamId) (n : Nat) : RocketServerConnection :=
  RocketServerStreamSubscriber.deliver (emit c (Event.request streamId n)) streamId
    (ext.pull c.trace streamId n)

/-- The frames a subscriber sends for the signals of its source: a `PAYLOAD(next)` frame
per item, then the terminal frame if the stream ends. -/
def Emission.frames (streamId : StreamId) (e : Emission) : List IOBuf :=
  e.items.map (fun item => IOBuf.PayloadFrame streamId item true false) ++
    match e.ending with
    | none => []
    | some StreamEnd.complete =>
      [IOBuf.PayloadFrame streamId { metadata := none, data := [] } false true]
    | some (StreamEnd.error code message) => [IOBuf.ErrorFrame streamId code message]

/-- The `RocketException` that `close` builds from its argument. -/
def closeException (ext : Externals) : exception_wrapper → ErrorCode × String
  | some e => (ErrorCode.CONNECTION_ERROR, ext.what e)
  | none => (ErrorCode.CONNECTION_CLOSE, "Closing connection")

/-- `RocketServerConnection::close`. -/
def close (ext : Externals) (ew : exception_wrapper) (c : RocketServerConnection) :
    Option RocketServerConnection :=
  match c.socket_ with
  | none => none
  | some s =>
    let c1 := { c with socket_ := some { s with readCB := false } }
    let rex := closeException ext ew
    let c2 := sendError c1 0 rex.1 rex.2
    some (closeIfNeeded { c2 with state_ := ConnectionState.CLOSING })

/-- `RocketServerConnection::createStreamSubscriber`. -/
def createStreamSubscriber (c : RocketServerConnection) (context : RocketServerFrameContext)
    (initialRequestN : Nat) : RocketServerConnection × RocketServerStreamSubscriber :=
  let streamId := context.streamId
  let subscriber : RocketServerStreamSubscriber :=
    { context := context, initialRequestN := initialRequestN }
  ({ c with streams_ := emplace c.streams_ streamId subscriber }, subscriber)

/-- Modelled from the spec: dispatch of a complete request to the frame handler; for a
stream request the subscriber is created first ("Streams are created on receipt of a
`REQUEST_STREAM` frame"). -/
def onFullFrame (c : RocketServerConnection) (context : RocketServerFrameContext) :
    RocketServerConnection :=
  match context.kind with
  | some RequestKind.RESPONSE =>
    emit c (Event.handleRequestResponseFrame context.streamId context.fragments)
  | some RequestKind.FNF =>
    emit c (Event.handleRequestFnfFrame context.streamId context.fragments)
  | some RequestKind.STREAM =>
    let r := createStreamSubscriber c context context.initialRequestN
    emit r.1 (Event.handleRequestStreamFrame context.streamId context.initialRequestN
      context.fragments)
  | none => c

/-- Modelled from the spec: `RocketServerFrameContext::onRequestFrame`: "if `follows` is
unset, immediately dispatches to the handler; else parks the context in
`partialFrames`". -/
def onRequestFrame (c : RocketServerConnection) (streamId : StreamId) (kind : RequestKind)
    (frame : Frame) : RocketServerConnection :=
  let context : RocketServerFrameContext :=
    { streamId := streamId, kind := some kind, initialRequestN := frame.requestN,
      fragments := [frame.payload] }
  if frame.hasFollows then
    { c with partialFrames_ := emplace c.partialFrames_ streamId context }
  else onFullFrame c context

/-- Modelled from the spec: `RocketServerFrameContext::onPayloadFrame`: "appends
fragment; if `follows` unset, dispatches".  While more fragments follow, the context stays
in the map with the fragment appended. -/
def onPayloadFrame (c : RocketServerConnection) (context : RocketServerFrameContext)
    (frame : Frame) : RocketServerConnection :=
  let context1 := { context with fragments := context.fragments ++ [frame.payload] }
  let c1 := emit c (Event.onPayloadFrame context.streamId frame.payload)
  if frame.hasFollows then
    { c1 with partialFrames_ := assign c1.partialFrames_ context.streamId context1 }
  else onFullFrame c1 context1

/-- The `switch (frameType)` of `handleFrame`. -/
def handleFrameSwitch (ext : Externals) (c : RocketServerConnection) (frame : Frame) :
    Option RocketServerConnection :=
  let streamId := frame.streamId
  match frame.frameType with
  | FrameType.SETUP => some (emit c (Event.handleSetupFrame streamId))
  | FrameType.REQUEST_RESPONSE => some (onRequestFrame c streamId RequestKind.RESPONSE frame)
  | FrameType.REQUEST_FNF => some (onRequestFrame c streamId RequestKind.FNF frame)
  | FrameType.REQUEST_STREAM => some (onRequestFrame c streamId RequestKind.STREAM frame)
  | FrameType.REQUEST_N =>
    match c.streams_.lookup streamId with
    | some _ => some (RocketServerStreamSubscriber.request ext c streamId frame.requestN)
    | none => some c
  | FrameType.CANCEL =>
    match c.streams_.lookup streamId with
    | some _ =>
      some { emit c (Event.cancel streamId) with streams_ := erase c.streams_ streamId }
    | none => some c
  | FrameType.PAYLOAD =>
    match c.partialFrames_.lookup streamId with
    | none =>
      close ext (some (Exception.RocketException ErrorCode.INVALID
        ("Unexpected PAYLOAD frame received on stream " ++ toString (streamId % 2 ^ 32)))) c
    | some frameContext =>
      let c1 := onPayloadFrame c frameContext frame
      some (if ¬ frame.hasFollows then
        { c1 with partialFrames_ := erase c1.partialFrames_ streamId } else c1)
  | frameType =>
    close ext (some (Exception.RocketException ErrorCode.INVALID
      ("Received unhandleable frame type (" ++ toString (ext.frameTypeCode frameType % 2 ^ 8)
        ++ ")"))) c

/-- `RocketServerConnection::handleFrame`. -/
def handleFrame (ext : Externals) (c : RocketServerConnection) (frame : Frame) :
    Option RocketServerConnection :=
  if ¬ c.setupFrameReceived_ then
    if frame.frameType ≠ FrameType.SETUP then
      close ext (some (Exception.RocketException ErrorCode.INVALID_SETUP
        "First frame must be SETUP frame")) c
    else handleFrameSwitch ext { c with setupFrameReceived_ := true } frame
  else
    if frame.frameType = FrameType.SETUP then
      close ext (some (Exception.RocketException ErrorCode.INVALID_SETUP
        "More than one SETUP frame received")) c
    else handleFrameSwitch ext c frame

/-- `RocketServerConnection::isBusy`. -/
def isBusy (c : RocketServerConnection) : Bool :=
  decide (c.inflight_ > 0) || c.batchWriteLoopCallback_.scheduled

/-- `RocketServerConnection::closeWhenIdle`. -/
def closeWhenIdle (ext : Externals) (c : RocketServerConnection) :
    Option RocketServerConnection :=
  close ext (some (Exception.TTransportException TTransportExceptionType.TIMED_OUT
    "Closing idle connection")) c

/-- `RocketServerConnection::timeoutExpired`. -/
def timeoutExpired (ext : Externals) (c : RocketServerConnection) :
    Option RocketServerConnection :=
  if ¬ isBusy c then closeWhenIdle ext c else some c

/-- `RocketServerConnection::notifyPendingShutdown`. -/
def notifyPendingShutdown (c : RocketServerConnection) : RocketServerConnection := c

/-- `RocketServerConnection::dropConnection`. -/
def dropConnection (ext : Externals) (c : RocketServerConnection) :
    Option RocketServerConnection :=
  close ext (some (Exception.TTransportException TTransportExceptionType.INTERRUPTED
    "Dropping connection")) c

/-- `RocketServerConnection::writeSuccess`. -/
def writeSuccess (c : RocketServerConnection) : RocketServerConnection := c

/-- `RocketServerConnection::writeErr`; `exWhat` is the text of `ex.what()`. -/
def writeErr (ext : Externals) (bytesWritten : Nat) (exWhat : String)
    (c : RocketServerConnection) : Option RocketServerConnection :=
  close ext (some (Exception.runtime_error
    ("Failed to write to remote endpoint. Wrote " ++ toString bytesWritten ++ " bytes."
      ++ " AsyncSocketException: " ++ exWhat))) c

/-- A batch of `send` calls, in the order given. -/
def sendAll (c : RocketServerConnection) (bufs : List IOBuf) : RocketServerConnection :=
  bufs.foldl send c

/-- Frames handed to `handleFrame` one after the other. -/
def handleFrames (ext : Externals) (c : RocketServerConnection) :
    List Frame → Option RocketServerConnection
  | [] => some c
  | f :: fs => (handleFrame ext c f).bind (fun c1 => handleFrames ext c1 fs)

/-- The operations of the connection. -/
inductive Operation
  | handleFrame (frame : Frame)
  | send (data : IOBuf)
  | close (ew : exception_wrapper)
  | closeIfNeeded
  | timeoutExpired
  | dropConnection
  | closeWhenIdle
  | writeErr (bytesWritten : Nat) (exWhat : String)
  deriving DecidableEq, Repr

/-- Runs one operation. -/
def Operation.apply (ext : Externals) (c : RocketServerConnection) :
    Operation → Option RocketServerConnection
  | Operation.handleFrame frame => Rocket.handleFrame ext c frame
  | Operation.send data => some (Rocket.send c data)
  | Operation.close ew => Rocket.close ext ew c
  | Operation.closeIfNeeded => some (Rocket.closeIfNeeded c)
  | Operation.timeoutExpired => Rocket.timeoutExpired ext c
  | Operation.dropConnection => Rocket.dropConnection ext c
  | Operation.closeWhenIdle => Rocket.closeWhenIdle ext c
  | Operation.writeErr bytesWritten exWhat => Rocket.writeErr ext bytesWritten exWhat c

/-- The representation invariant tying the state to the socket: the socket is dropped
exactly in `closeIfNeeded`, together with the move to `CLOSED`. -/
def SocketInvariant (c : RocketServerConnection) : Prop :=
  c.state_ = ConnectionState.CLOSED → c.socket_ = none

/-- Recognises the call `frameHandler_->handleSetupFrame`. -/
def Event.isHandleSetupFrame : Event → Bool
  | Event.handleSetupFrame _ => true
  | _ => false

/-- Recognises the processing of a request, demand, cancel or payload frame: a dispatch to
the handler, a call on a stream subscriber, or a fragment applied to a parked context. -/
def Event.isFrameProcessing : Event → Bool
  | Event.handleRequestResponseFrame _ _ => true
  | Event.handleRequestFnfFrame _ _ => true
  | Event.handleRequestStreamFrame _ _ _ => true
  | Event.request _ _ => true
  | Event.cancel _ => true
  | Event.onPayloadFrame _ _ => true
  | _ => false

/-- Recognises any call into the frame handler. -/
def Event.isHandlerCall : Event → Bool
  | Event.handleSetupFrame _ => true
  | Event.handleRequestResponseFrame _ _ => true
  | Event.handleRequestFnfFrame _ _ => true
  | Event.handleRequestStreamFrame _ _ _ => true
  | _ => false

/-- Number of `handleSetupFrame` calls in a trace. -/
def setupCalls (t : List Event) : Nat :=
  (t.filter Event.isHandleSetupFrame).length

/-- A frame with the given header and an empty body. -/
def Frame.header (streamId : StreamId) (frameType : FrameType) : Frame :=
  { streamId := streamId, frameType := frameType, hasFollows := false, requestN := 0,
    payload := { metadata := none, data := [] } }

/-- A request/response frame carrying the given data. -/
def Frame.requestResponse (streamId : StreamId) (data : String) : Frame :=
  { streamId := streamId, frameType := FrameType.REQUEST_RESPONSE, hasFollows := false,
    requestN := 0, payload := { metadata := none, data := data.toList } }

/-- A connection that has accepted its SETUP frame and is otherwise as constructed. -/
def RocketServerConnection.afterSetup (managed : Bool) : RocketServerConnection :=
  { RocketServerConnection.create managed with
    setupFrameReceived_ := true
    trace := [Event.handleSetupFrame 0] }

/-- A stream subscriber for the given stream with the given initial demand. -/
def RocketServerStreamSubscriber.forStream (streamId : StreamId) (n : Nat) :
    RocketServerStreamSubscriber :=
  { context := { streamId := streamId, kind := some RequestKind.STREAM, initialRequestN := n,
                 fragments := [] },
    initialRequestN := n }

/-- A closing connection with one registered stream (id 5) and `inflight_ = 1`. -/
def RocketServerConnection.closingWithStream : RocketServerConnection :=
  { RocketServerConnection.afterSetup true with
    socket_ := some { readCB := false }
    state_ := ConnectionState.CLOSING
    inflight_ := 1
    streams_ := [(5, RocketServerStreamSubscriber.forStream 5 1)] }

/-- The setup rule as an invariant: `handleSetupFrame` has been called at most once, and as
long as no SETUP frame has been accepted nothing has been dispatched to the handler, no
subscriber has been called, no fragment has been applied, and both maps are empty. -/
def SetupInvariant (c : RocketServerConnection) : Prop :=
  setupCalls c.trace ≤ 1 ∧
  (c.setupFrameReceived_ = false →
    c.streams_ = [] ∧ c.partialFrames_ = [] ∧
    ∀ e ∈ c.trace, e.isFrameProcessing = false ∧ e.isHandlerCall = false)

/-- The frame types that carry requests, demand, cancellation or payload. -/
def requestFrameTypes : List FrameType :=
  [FrameType.REQUEST_RESPONSE, FrameType.REQUEST_FNF, FrameType.REQUEST_STREAM,
   FrameType.REQUEST_N, FrameType.CANCEL, FrameType.PAYLOAD]

/-- The message an exception object was constructed with. -/
def Exception.message : Exception → String
  | Exception.RocketException _ msg => msg
  | Exception.TTransportException _ msg => msg
  | Exception.runtime_error msg => msg

/-- Text `t` occurs somewhere in text `s`. -/
def occursIn (t s : String) : Prop :=
  ∃ before after : String, s = before ++ t ++ after

/-- The text `writeErr` formats with `folly::sformat`. -/
def writeErrText (bytesWritten : Nat) (exWhat : String) : String :=
  "Failed to write to remote endpoint. Wrote " ++ toString bytesWritten ++ " bytes."
    ++ " AsyncSocketException: " ++ exWhat

/-- An `ALIVE` connection that has accepted SETUP and has stream 5 registered. -/
def RocketServerConnection.withStream : RocketServerConnection :=
  { RocketServerConnection.afterSetup true with
    inflight_ := 1
    streams_ := [(5, RocketServerStreamSubscriber.forStream 5 1)] }

/-- The context parked for a fragmented request/response on stream 7. -/
def RocketServerFrameContext.parked7 : RocketServerFrameContext :=
  { streamId := 7, kind := some RequestKind.RESPONSE, initialRequestN := 0,
    fragments := [{ metadata := none, data := "da".toList }] }

/-- An `ALIVE` connection that has accepted SETUP and holds a parked context for
stream 7. -/
def RocketServerConnection.withParked : RocketServerConnection :=
  { RocketServerConnection.afterSetup true with
    inflight_ := 1
    partialFrames_ := [(7, RocketServerFrameContext.parked7)] }

/-- A PAYLOAD frame for the given stream. -/
def Frame.payloadFrame (streamId : StreamId) (hasFollows : Bool) (data : String) : Frame :=
  { streamId := streamId, frameType := FrameType.PAYLOAD, hasFollows := hasFollows,
    requestN := 0, payload := { metadata := none, data := data.toList } }

/-- A REQUEST_N frame for the given stream. -/
def Frame.requestNFrame (streamId : StreamId) (n : Nat) : Frame :=
  { streamId := streamId, frameType := FrameType.REQUEST_N, hasFollows := false,
    requestN := n, payload := { metadata := none, data := [] } }

/-- A REQUEST_STREAM frame for the given stream. -/
def Frame.requestStream (streamId : StreamId) (initialRequestN : Nat) (data : String) :
    Frame :=
  { streamId := streamId, frameType := FrameType.REQUEST_STREAM, hasFollows := false,
    requestN := initialRequestN, payload := { metadata := none, data := data.toList } }

/-! ### Test utilities (`ClientServerTestUtil.cpp`) -/

/-- The reply operations a handler can invoke on a frame context. -/
inductive ContextCall
  | sendError (code : ErrorCode) (message : String)
  | sendPayload (payload : Payload) (next complete : Bool)
  deriving DecidableEq, Repr

/-- Performs a reply operation on the context of the given stream. -/
def ContextCall.apply (c : RocketServerConnection) (streamId : StreamId) :
    ContextCall → RocketServerConnection
  | ContextCall.sendError code message => Rocket.sendError c streamId code message
  | ContextCall.sendPayload payload next complete =>
    Rocket.sendPayload c streamId payload next complete

/-- The `folly::StringPiece::startsWith` test. -/
def startsWith (data pre : Bytes) : Bool :=
  pre.isPrefixOf data

/-- The `folly::StringPiece::removePrefix` operation: the remainder when the piece starts
with `pre`, `none` (piece untouched, result `false`) otherwise. -/
def removePrefix (data pre : Bytes) : Option Bytes :=
  if startsWith data pre then some (data.drop pre.length) else none

/-- The constant `kMetadataEchoPrefix`. -/
def kMetadataEchoPrefix : Bytes := "metadata_echo:".toList

/-- The constant `kDataEchoPrefix`. -/
def kDataEchoPrefix : Bytes := "data_echo:".toList

/-- The function `makeTestResponse`.  `toUInt32` stands for `folly::to<uint32_t>`, which throws
on text that is not a 32-bit unsigned number (`none`); the function then returns nothing
(`none`).  The pair is (metadata, data), each a possibly null buffer.  The sleep itself
leaves no mark on the returned pair. -/
def makeTestResponse (toUInt32 : Bytes → Option Nat) (requestMetadata : Option Bytes)
    (requestData : Bytes) : Option (Option Bytes × Option Bytes) :=
  let data := requestData
  let response : Option (Option Bytes × Option Bytes) :=
    match removePrefix data "sleep_ms:".toList with
    | some rest => (toUInt32 rest).map (fun _ => (none, none))
    | none =>
      match removePrefix data "error:".toList with
      | some _ => some (none, none)
      | none =>
        if startsWith data kMetadataEchoPrefix then
          some (some (requestData.drop kMetadataEchoPrefix.length), some requestData)
        else if startsWith data kDataEchoPrefix then
          some (requestMetadata, some (requestData.drop kDataEchoPrefix.length))
        else some (none, none)
  response.map (fun r =>
    if r.1.isNone && r.2.isNone then (requestMetadata, some requestData) else r)

/-- Modelled from the spec: `Payload::makeFromMetadataAndData` (the payload class is not
among the sources): "an optional metadata byte sequence plus an optional data byte
sequence"; a null data buffer carries no bytes. -/
def makeFromMetadataAndData (metadata data : Option Bytes) : Payload :=
  { metadata := metadata, data := data.getD [] }

/-- `RocketTestServerHandler::handleRequestResponseFrame`: the reply operations performed
on the context, or `none` when the conversion inside `makeTestResponse` throws. -/
def handleRequestResponseFrame (toUInt32 : Bytes → Option Nat) (frame : Frame) :
    Option (List ContextCall) :=
  let payload := frame.payload
  match removePrefix payload.data "error:application".toList with
  | some _ =>
    some [ContextCall.sendError ErrorCode.APPLICATION_ERROR "Application error occurred"]
  | none =>
    let md := payload.metadata
    let data := payload.data
    match makeTestResponse toUInt32 md data with
    | none => none
    | some response =>
      some [ContextCall.sendPayload (makeFromMetadataAndData response.1 response.2) true true]

/-- A sample of `folly::to<uint32_t>` used to evaluate the test utilities on examples:
a non-empty run of decimal digits below `2 ^ 32`. -/
def toUInt32Sample (text : Bytes) : Option Nat :=
  if text ≠ [] ∧ text.all Char.isDigit then
    let n := text.foldl (fun acc ch => 10 * acc + (ch.toNat - 48)) 0
    if n < 2 ^ 32 then some n else none
  else none

/-- Events a generator signals to its subscriber. -/
inductive SubscriberEvent
  | onNext (payload : Payload)
  | onComplete
  deriving DecidableEq, Repr

/-- The specialisation `makePayload<apache::thrift::rocket::Payload>`. -/
def makePayload (metadata data : String) : Payload :=
  makeFromMetadataAndData (some metadata.toList) (some data.toList)

/-- The payload the generator of `makeTestFlowable` builds for counter value `i`. -/
def testItem (i : Nat) : Payload :=
  makePayload ("metadata:" ++ toString i) (toString i)

/-- The closure `gen` of `makeTestFlowable`: the captured `n` and the mutable counter
`i`. -/
structure Generator where
  n : Nat
  i : Nat
  deriving DecidableEq, Repr

/-- The loop `while (requested-- > 0 && i < n)` of the generator: the events signalled and
the counter afterwards. -/
def Generator.loop (n : Nat) : Nat → Nat → List SubscriberEvent × Nat
  | 0, i => ([], i)
  | requested + 1, i =>
    if i < n then
      let r := Generator.loop n requested (i + 1)
      (SubscriberEvent.onNext (testItem i) :: r.1, r.2)
    else ([], i)

/-- One invocation of the generator with the given `requested` (an `int64_t`; values
below one run no iteration): the events signalled to the subscriber and the closure
afterwards. -/
def Generator.invoke (g : Generator) (requested : Int) :
    List SubscriberEvent × Generator :=
  let r := Generator.loop g.n requested.toNat g.i
  (r.1 ++ (if r.2 = g.n then [SubscriberEvent.onComplete] else []), { g with i := r.2 })

/-- Modelled from the spec: a flowable made by `yarpl::flowable::Flowable<P>::create`
from an emitter closure, as seen by one subscriber (the library is not among the sources).
Demand reaching the flowable is handed to the emitter; once the emitter has signalled
`onComplete` the stream is over ("transitions to `Terminal`", "exactly one terminal
outbound event occurs") and the emitter is not invoked again. -/
structure Flowable where
  emitter : Generator
  completed : Bool
  deriving DecidableEq, Repr

/-- The call `Flowable<P>::create(std::move(gen))`. -/
def Flowable.create (gen : Generator) : Flowable :=
  { emitter := gen, completed := false }

/-- Demand `requested` reaching the flowable: the events signalled to the subscriber and
the flowable afterwards. -/
def Flowable.request (f : Flowable) (requested : Int) : List SubscriberEvent × Flowable :=
  if f.completed then ([], f)
  else
    let r := f.emitter.invoke requested
    (r.1, { emitter := r.2, completed := decide (SubscriberEvent.onComplete ∈ r.1) })

/-- The function `makeTestFlowable`.  `toSize` stands for `folly::to<size_t>`, which throws
(`none`) on text that is not a number of that type. -/
def makeTestFlowable (toSize : Bytes → Option Nat) (data : Bytes) : Option Flowable :=
  let n : Option Nat :=
    match removePrefix data "generate:".toList with
    | some rest => toSize rest
    | none => some 500
  n.map (fun n => Flowable.create { n := n, i := 0 })

/-- Successive invocations of the generator: the events of each invocation. -/
def Generator.invokeAll (g : Generator) : List Int → List (List SubscriberEvent)
  | [] => []
  | requested :: rest =>
    (g.invoke requested).1 :: Generator.invokeAll (g.invoke requested).2 rest

/-- The closure after successive invocations. -/
def Generator.after (g : Generator) : List Int → Generator
  | [] => g
  | requested :: rest => Generator.after (g.invoke requested).2 rest

/-- Successive demands reaching the flowable: the events of each. -/
def Flowable.requestAll (f : Flowable) : List Int → List (List SubscriberEvent)
  | [] => []
  | requested :: rest =>
    (f.request requested).1 :: Flowable.requestAll (f.request requested).2 rest

/-- Recognises `onNext`. -/
def SubscriberEvent.isOnNext : SubscriberEvent → Bool
  | SubscriberEvent.onNext _ => true
  | SubscriberEvent.onComplete => false

/-- Number of `onNext` signals. -/
def countNext (events : List SubscriberEvent) : Nat :=
  (events.filter SubscriberEvent.isOnNext).length

/-- Number of `onComplete` signals. -/
def countComplete (events : List SubscriberEvent) : Nat :=
  events.count SubscriberEvent.onComplete

/-- The `onNext` signals for the counter values `first, first + 1, ...` (`count` of
them). -/
def itemsFrom (first count : Nat) : List SubscriberEvent :=
  (List.range' first count).map (fun i => SubscriberEvent.onNext (testItem i))

/-! ### Write accounting -/

/-- The buffers handed to the socket so far, in order. -/
def flushed : List Event → List IOBuf
  | [] => []
  | Event.writeChain bufs :: rest => bufs ++ flushed rest
  | _ :: rest => flushed rest

/-- Every buffer `send` has accepted so far, in order: those already handed to the socket
followed by those still queued. -/
def accepted (c : RocketServerConnection) : List IOBuf :=
  flushed c.trace ++ c.batchWriteLoopCallback_.bufQueue

/-- Successive `close` calls. -/
def closeAll (ext : Externals) (c : RocketServerConnection) :
    List exception_wrapper → Option RocketServerConnection
  | [] => some c
  | ew :: rest => (close ext ew c).bind (fun c1 => closeAll ext c1 rest)

/-- An `ALIVE` connection with one task in flight outside the registry, so that a close
leaves it `CLOSING`. -/
def RocketServerConnection.withTask : RocketServerConnection :=
  { RocketServerConnection.afterSetup true with inflight_ := 1 }

/-- The operations that are a `close` with some argument. -/
def Operation.isClose : Operation → Bool
  | Operation.close _ => true
  | Operation.dropConnection => true
  | Operation.closeWhenIdle => true
  | Operation.writeErr _ _ => true
  | _ => false

/-- Successive operations. -/
def Operation.applyAll (ext : Externals) (c : RocketServerConnection) :
    List Operation → Option RocketServerConnection
  | [] => some c
  | op :: rest => (op.apply ext c).bind (fun c1 => Operation.applyAll ext c1 rest)

/-! ### Kernel TLS probing (`Utils.cpp`) -/

/-- The struct `kernel_version`. -/
structure kernel_version where
  major : Int
  minor : Int
  patch : Int
  deriving DecidableEq, Repr

/-- A `std::ifstream` as far as the probe uses it: the unread content and whether
`good()` holds (no state bit set). -/
structure IfStream where
  rest : Bytes
  good : Bool
  deriving DecidableEq, Repr

/-- The extraction of `istream::getline(buf, count)` with `room` characters of `buf` still
free: characters are stored until end of file (the stream is no longer good), until the
next character is the newline (extracted, not stored), or until `count - 1` characters are
stored (fail bit, the stream is no longer good), tested in this order.  Returns the text
left in `buf` and the stream. -/
def getlineLoop : Nat → Bytes → Bytes → Bytes × IfStream
  | _, [], stored => (stored, { rest := [], good := false })
  | room, ch :: rest, stored =>
    if ch = '\n' then (stored, { rest := rest, good := true })
    else
      match room with
      | 0 => (stored, { rest := ch :: rest, good := false })
      | room + 1 => getlineLoop room rest (stored ++ [ch])

/-- The call `f.getline(buf, sizeof(buf))` with `char buf[64]` on a good stream. -/
def getline (f : IfStream) : Bytes × IfStream :=
  getlineLoop 63 f.rest []

/-- The test `std::memcmp(buf, "tls", 3)` as a condition: true when the first three bytes
of the terminated text in `buf` differ from "tls". -/
def memcmpTls (buf : Bytes) : Bool :=
  !(startsWith buf "tls".toList)

/-- The loop `while (f.good())` of `verify_ktls_compatibility`: the value of `found` when
it ends.  Every round that goes on has consumed a line, so `fuel` above the number of
unread characters is never used up. -/
def findLoop : Nat → IfStream → Bool
  | 0, _ => false
  | fuel + 1, f =>
    if f.good then
      if memcmpTls (getline f).1 then true else findLoop fuel (getline f).2
    else false

/-- The value of `found` for the given content of `/proc/modules` (`none`: the file could
not be opened). -/
def tlsFound (modules : Option Bytes) : Bool :=
  match modules with
  | none => false
  | some content => findLoop (content.length + 1) { rest := content, good := true }

/-- The two messages `verify_ktls_compatibility` can log. -/
inductive LogLine
  | kernelTooOld
  | tlsModuleNotLoaded
  deriving DecidableEq, Repr

/-- The function `verify_ktls_compatibility`; `kv` is the result of
`get_kernel_version()`. -/
def verify_ktls_compatibility (kv : kernel_version) (modules : Option Bytes) :
    List LogLine :=
  (if kv.major < 4 ∨ (kv.major = 4 ∧ kv.minor < 16) then [LogLine.kernelTooOld] else [])
    ++ (if ¬ tlsFound modules then [LogLine.tlsModuleNotLoaded] else [])

/-- The lines of a text, split at newlines. -/
def textLines : Bytes → List Bytes
  | [] => [[]]
  | ch :: rest =>
    match textLines rest with
    | [] => [[]]
    | line :: more => if ch = '\n' then [] :: line :: more else (ch :: line) :: more

/-- Follows the claim's words: some line of the file begins with the three characters
"tls". -/
def someLineBeginsWithTls (content : Bytes) : Bool :=
  (textLines content).any (fun line => startsWith line "tls".toList)

/-- A sample of `folly::to<size_t>` used to evaluate the test utilities on examples:
a non-empty run of decimal digits below `2 ^ 64`. -/
def toSizeSample (text : Bytes) : Option Nat :=
  if text ≠ [] ∧ text.all Char.isDigit then
    let n := text.foldl (fun acc ch => 10 * acc + (ch.toNat - 48)) 0
    if n < 2 ^ 64 then some n else none
  else none

/-- The signals of one pull as an emission: the items of the `onNext`s, and the end of
the stream when `onComplete` is among them. -/
def Emission.ofEvents (events : List SubscriberEvent) : Emission :=
  { items := events.filterMap (fun e =>
      match e with
      | SubscriberEvent.onNext payload => some payload
      | SubscriberEvent.onComplete => none)
    ending := if SubscriberEvent.onComplete ∈ events then some StreamEnd.complete else none }

/-- The flowable that `RocketTestServerHandler::handleRequestStreamFrame` subscribed to
the subscriber of a stream, advanced by the demands recorded so far: at the dispatch the
handler builds `makeTestFlowable(dataPiece)` (nothing to pull from when the data starts
with "error:application") and the initial demand is applied; every later `request(n)` is
applied in turn. -/
def testFlowableOf (streamId : StreamId) : List Event → Option Flowable → Option Flowable
  | [], f => f
  | Event.handleRequestStreamFrame id n fragments :: rest, f =>
    if id = streamId then
      let data := (fragments.map Payload.data).flatten
      match removePrefix data "error:application".toList with
      | some _ => testFlowableOf streamId rest none
      | none =>
        testFlowableOf streamId rest
          ((makeTestFlowable toSizeSample data).map (fun fl => (fl.request n).2))
    else testFlowableOf streamId rest f
  | Event.request id n :: rest, f =>
    if id = streamId then testFlowableOf streamId rest (f.map (fun fl => (fl.request n).2))
    else testFlowableOf streamId rest f
  | _ :: rest, f => testFlowableOf streamId rest f

/-- The source of the test handler: what the flowable subscribed to the stream signals on
a further demand of `n`. -/
def testPull (trace : List Event) (streamId : StreamId) (n : Nat) : Emission :=
  match testFlowableOf streamId trace none with
  | none => { items := [], ending := none }
  | some fl => Emission.ofEvents (fl.request n).1

/-- A concrete choice of the externals, used to evaluate the functions on examples:
`what()` renders as class name, colon, message; frame types carry their RSocket protocol
numbers; streams are fed by the test handler. -/
def Externals.sample : Externals :=
  { what := fun e =>
      match e with
      | Exception.RocketException _ msg => "apache::thrift::rocket::RocketException: " ++ msg
      | Exception.TTransportException _ msg =>
        "apache::thrift::transport::TTransportException: " ++ msg
      | Exception.runtime_error msg => "std::runtime_error: " ++ msg
    frameTypeCode := fun t =>
      match t with
      | FrameType.SETUP => 1
      | FrameType.REQUEST_RESPONSE => 4
      | FrameType.REQUEST_FNF => 5
      | FrameType.REQUEST_STREAM => 6
      | FrameType.REQUEST_N => 8
      | FrameType.CANCEL => 9
      | FrameType.PAYLOAD => 10
      | FrameType.ERROR => 11
      | FrameType.RESERVED code => code
    pull := testPull }

/-- The connection after SETUP and REQUEST_STREAM(stream 3, initial demand 2, data
"generate:5"): stream 3 is registered and has been handed to the handler. -/
def RocketServerConnection.withGenerate5 : RocketServerConnection :=
  { RocketServerConnection.afterSetup true with
    streams_ :=
      [(3, { context := { streamId := 3, kind := some RequestKind.STREAM, initialRequestN := 2,
                          fragments := [{ metadata := none, data := "generate:5".toList }] },
             initialRequestN := 2 })]
    trace := [Event.handleSetupFrame 0,
      Event.handleRequestStreamFrame 3 2 [{ metadata := none, data := "generate:5".toList }]] }

/-! ## Theorems -/

/-- The sweep loop empties the registry and calls `cancel` once per entry, in iteration
order; nothing else changes. -/
theorem cancelStreams_eq (l : List (StreamId × RocketServerStreamSubscriber))
    (c : RocketServerConnection) :
    cancelStreams l c =
      { c with streams_ := [], trace := c.trace ++ l.map (fun p => Event.cancel p.1) } := by
  induction l generalizing c with
  | nil => simp [cancelStreams]
  | cons p rest ih =>
    obtain ⟨id, s⟩ := p
    simp [cancelStreams, ih, emit, List.append_assoc]

/-- Closed form of `closeIfNeeded` once its guard is passed. -/
theorem closeIfNeeded_eq_of_guard (c : RocketServerConnection)
    (hs : c.state_ = ConnectionState.CLOSING) (hi : c.inflight_ = c.streams_.length) :
    closeIfNeeded c =
      { c with
        socket_ := none
        state_ := ConnectionState.CLOSED
        streams_ := []
        batchWriteLoopCallback_ :=
          if c.batchWriteLoopCallback_.scheduled then { bufQueue := [], scheduled := false }
          else c.batchWriteLoopCallback_
        manager := false
        trace := c.trace ++ c.streams_.map (fun p => Event.cancel p.1)
          ++ (if c.batchWriteLoopCallback_.scheduled then
                [Event.cancelLoopCallback, Event.writeChain c.batchWriteLoopCallback_.bufQueue]
              else [])
          ++ (if c.manager then [Event.removeConnection] else [])
          ++ [Event.destroy] } := by
  unfold closeIfNeeded
  rw [if_neg (by simp [hs, hi])]
  simp only [cancelStreams_eq]
  cases hsch : c.batchWriteLoopCallback_.scheduled <;> cases hm : c.manager <;>
    simp [hsch, hm, emit, removeConnection, flushPendingWrites, cancelLoopCallback]

/-- Outside its guard `closeIfNeeded` returns at once. -/
theorem closeIfNeeded_skip (c : RocketServerConnection)
    (h : c.state_ ≠ ConnectionState.CLOSING ∨ c.inflight_ ≠ c.streams_.length) :
    closeIfNeeded c = c := by
  unfold closeIfNeeded
  rw [if_pos h]

/-- C6: `closeIfNeeded` returns the connection unchanged (state, registry, write queue,
manager registration, socket, and no `cancel` call) whenever the state is `ALIVE` or
`CLOSED`, or `inflight_` differs from `streams_.size()`. -/
theorem closeIfNeeded_noop (c : RocketServerConnection)
    (h : c.state_ = ConnectionState.ALIVE ∨ c.state_ = ConnectionState.CLOSED ∨
      c.inflight_ ≠ c.streams_.length) :
    closeIfNeeded c = c := by
  unfold closeIfNeeded
  rw [if_pos]
  rcases h with h | h | h
  · left; rw [h]; decide
  · left; rw [h]; decide
  · right; exact h

/-- C6 (instance): a connection that is still `ALIVE` is left untouched by
`closeIfNeeded`. -/
theorem closeIfNeeded_noop_witness :
    ((RocketServerConnection.afterSetup true).state_ = ConnectionState.ALIVE ∨
      (RocketServerConnection.afterSetup true).state_ = ConnectionState.CLOSED ∨
      (RocketServerConnection.afterSetup true).inflight_ ≠
        (RocketServerConnection.afterSetup true).streams_.length) ∧
    closeIfNeeded (RocketServerConnection.afterSetup true) =
      RocketServerConnection.afterSetup true :=
  ⟨Or.inl rfl, closeIfNeeded_noop (RocketServerConnection.afterSetup true) (Or.inl rfl)⟩

/-- C7: once the guard is passed (`CLOSING` and `inflight_ == streams_.size()`),
`closeIfNeeded` calls `cancel` exactly once for every registry entry (in iteration order)
and leaves the registry empty; if and only if the write-loop callback was scheduled it
cancels the callback and hands the queued writes to the socket; then it sets the state to
`CLOSED`, calls `removeConnection` when a manager is attached, drops the socket and calls
`destroy`.  Nothing else is called. -/
theorem closeIfNeeded_closes (c : RocketServerConnection)
    (hs : c.state_ = ConnectionState.CLOSING) (hi : c.inflight_ = c.streams_.length) :
    (closeIfNeeded c).trace =
        c.trace ++ c.streams_.map (fun p => Event.cancel p.1)
          ++ (if c.batchWriteLoopCallback_.scheduled then
                [Event.cancelLoopCallback, Event.writeChain c.batchWriteLoopCallback_.bufQueue]
              else [])
          ++ (if c.manager then [Event.removeConnection] else [])
          ++ [Event.destroy] ∧
    (closeIfNeeded c).streams_ = [] ∧
    (closeIfNeeded c).batchWriteLoopCallback_.scheduled = false ∧
    (closeIfNeeded c).batchWriteLoopCallback_.bufQueue =
        (if c.batchWriteLoopCallback_.scheduled then []
         else c.batchWriteLoopCallback_.bufQueue) ∧
    (closeIfNeeded c).state_ = ConnectionState.CLOSED ∧
    (closeIfNeeded c).manager = false ∧
    (closeIfNeeded c).socket_ = none := by
  rw [closeIfNeeded_eq_of_guard c hs hi]
  cases hsch : c.batchWriteLoopCallback_.scheduled <;> simp [hsch]

/-- C7 (instance): a closing connection with one registered stream. -/
theorem closeIfNeeded_closes_witness :
    RocketServerConnection.closingWithStream.state_ = ConnectionState.CLOSING ∧
    RocketServerConnection.closingWithStream.inflight_ =
      RocketServerConnection.closingWithStream.streams_.length ∧
    (closeIfNeeded RocketServerConnection.closingWithStream).trace =
      [Event.handleSetupFrame 0, Event.cancel 5, Event.removeConnection, Event.destroy] ∧
    (closeIfNeeded RocketServerConnection.closingWithStream).streams_ = [] ∧
    (closeIfNeeded RocketServerConnection.closingWithStream).state_ =
      ConnectionState.CLOSED :=
  ⟨rfl, rfl,
    (closeIfNeeded_closes RocketServerConnection.closingWithStream rfl rfl).1.trans rfl,
    (closeIfNeeded_closes RocketServerConnection.closingWithStream rfl rfl).2.1,
    (closeIfNeeded_closes RocketServerConnection.closingWithStream rfl rfl).2.2.2.2.1⟩

/-- On a connection that is not `ALIVE`, `send` does nothing. -/
theorem send_of_not_alive (c : RocketServerConnection) (data : IOBuf)
    (h : c.state_ ≠ ConnectionState.ALIVE) : send c data = c := by
  simp [send, h]

/-- On an `ALIVE` connection, `send` appends the buffer, leaves the callback scheduled and
calls `runInLoop` exactly when the callback was not scheduled. -/
theorem send_of_alive (c : RocketServerConnection) (data : IOBuf)
    (h : c.state_ = ConnectionState.ALIVE) :
    send c data =
      { c with
        batchWriteLoopCallback_ :=
          { bufQueue := c.batchWriteLoopCallback_.bufQueue ++ [data], scheduled := true }
        trace := c.trace ++
          (if c.batchWriteLoopCallback_.scheduled then [] else [Event.runInLoop]) } := by
  cases hsch : c.batchWriteLoopCallback_.scheduled <;>
    simp [send, h, enqueueWrite, runInLoop, emit, hsch]

/-- Unfolding of a batch of sends. -/
theorem sendAll_cons (c : RocketServerConnection) (b : IOBuf) (bufs : List IOBuf) :
    sendAll c (b :: bufs) = sendAll (send c b) bufs := rfl

/-- A batch of sends on a connection that is not `ALIVE` does nothing. -/
theorem sendAll_of_not_alive (c : RocketServerConnection) (bufs : List IOBuf)
    (h : c.state_ ≠ ConnectionState.ALIVE) : sendAll c bufs = c := by
  induction bufs with
  | nil => rfl
  | cons b rest ih => rw [sendAll_cons, send_of_not_alive c b h, ih]

/-- A batch of sends on an `ALIVE` connection whose callback is already scheduled only
appends to the queue. -/
theorem sendAll_of_scheduled (bufs : List IOBuf) (c : RocketServerConnection)
    (h : c.state_ = ConnectionState.ALIVE)
    (hsch : c.batchWriteLoopCallback_.scheduled = true) :
    sendAll c bufs =
      { c with batchWriteLoopCallback_ :=
          { bufQueue := c.batchWriteLoopCallback_.bufQueue ++ bufs, scheduled := true } } := by
  induction bufs generalizing c with
  | nil =>
    simp [sendAll]
    rw [← hsch]
  | cons b rest ih =>
    rw [sendAll_cons,
      ih (send c b) (by rw [send_of_alive c b h]; exact h) (by rw [send_of_alive c b h])]
    rw [send_of_alive c b h]
    simp [hsch]

/-- C9: a batch of buffers passed to `send` in order.  If the state is not `ALIVE` the
connection (in particular the write queue and the scheduled flag) is unchanged.  If the
state is `ALIVE`, the queue afterwards is the previous queue followed by the buffers in the
order sent, the callback is scheduled after a non-empty batch, and `runInLoop` is called
at most once: by the first send, and only if it found the callback unscheduled; the sends
after the first call nothing. -/
theorem send_batch (c : RocketServerConnection) (bufs : List IOBuf) :
    (c.state_ ≠ ConnectionState.ALIVE → sendAll c bufs = c) ∧
    (c.state_ = ConnectionState.ALIVE →
      (sendAll c bufs).batchWriteLoopCallback_.bufQueue =
        c.batchWriteLoopCallback_.bufQueue ++ bufs ∧
      (bufs ≠ [] → (sendAll c bufs).batchWriteLoopCallback_.scheduled = true) ∧
      (sendAll c bufs).trace = c.trace ++
        (if c.batchWriteLoopCallback_.scheduled = true ∨ bufs = [] then []
         else [Event.runInLoop]) ∧
      (∀ b rest, bufs = b :: rest → (sendAll c bufs).trace = (send c b).trace)) := by
  refine ⟨sendAll_of_not_alive c bufs, fun h => ?_⟩
  cases bufs with
  | nil => simp [sendAll]
  | cons b rest =>
    have h1 : (send c b).state_ = ConnectionState.ALIVE := by
      rw [send_of_alive c b h]; exact h
    have h2 : (send c b).batchWriteLoopCallback_.scheduled = true := by
      rw [send_of_alive c b h]
    rw [sendAll_cons, sendAll_of_scheduled rest (send c b) h1 h2]
    refine ⟨?_, fun _ => rfl, ?_, fun b1 rest1 heq => ?_⟩
    rotate_left 2
    · cases heq; rfl
    · rw [send_of_alive c b h]; simp
    · rw [send_of_alive c b h]
      cases hsch : c.batchWriteLoopCallback_.scheduled <;> simp

/-- C9 (instance): two buffers sent on a fresh connection, and on a closing one. -/
theorem send_batch_witness :
    (RocketServerConnection.closingWithStream.state_ ≠ ConnectionState.ALIVE ∧
      sendAll RocketServerConnection.closingWithStream
        [IOBuf.ErrorFrame 7 ErrorCode.APPLICATION_ERROR "a",
         IOBuf.ErrorFrame 9 ErrorCode.CANCELED "b"] =
        RocketServerConnection.closingWithStream) ∧
    ((RocketServerConnection.create true).state_ = ConnectionState.ALIVE ∧
      (sendAll (RocketServerConnection.create true)
        [IOBuf.ErrorFrame 7 ErrorCode.APPLICATION_ERROR "a",
         IOBuf.ErrorFrame 9 ErrorCode.CANCELED "b"]).batchWriteLoopCallback_.bufQueue =
        [IOBuf.ErrorFrame 7 ErrorCode.APPLICATION_ERROR "a",
         IOBuf.ErrorFrame 9 ErrorCode.CANCELED "b"] ∧
      (sendAll (RocketServerConnection.create true)
        [IOBuf.ErrorFrame 7 ErrorCode.APPLICATION_ERROR "a",
         IOBuf.ErrorFrame 9 ErrorCode.CANCELED "b"]).batchWriteLoopCallback_.scheduled = true ∧
      (sendAll (RocketServerConnection.create true)
        [IOBuf.ErrorFrame 7 ErrorCode.APPLICATION_ERROR "a",
         IOBuf.ErrorFrame 9 ErrorCode.CANCELED "b"]).trace = [Event.runInLoop]) :=
  ⟨⟨by decide,
      (send_batch RocketServerConnection.closingWithStream
        [IOBuf.ErrorFrame 7 ErrorCode.APPLICATION_ERROR "a",
         IOBuf.ErrorFrame 9 ErrorCode.CANCELED "b"]).1 (by decide)⟩,
    ⟨rfl,
      ((send_batch (RocketServerConnection.create true)
        [IOBuf.ErrorFrame 7 ErrorCode.APPLICATION_ERROR "a",
         IOBuf.ErrorFrame 9 ErrorCode.CANCELED "b"]).2 rfl).1,
      ((send_batch (RocketServerConnection.create true)
        [IOBuf.ErrorFrame 7 ErrorCode.APPLICATION_ERROR "a",
         IOBuf.ErrorFrame 9 ErrorCode.CANCELED "b"]).2 rfl).2.1 (by simp),
      ((send_batch (RocketServerConnection.create true)
        [IOBuf.ErrorFrame 7 ErrorCode.APPLICATION_ERROR "a",
         IOBuf.ErrorFrame 9 ErrorCode.CANCELED "b"]).2 rfl).2.2.1.trans rfl⟩⟩

/-- C8: on an `ALIVE` connection (which owns its socket), `close` clears the read
callback, then sends one `ERROR` frame for stream 0 while the state is still `ALIVE`, so
that the frame is appended at the end of the pending write queue and the callback is
scheduled, then sets the state to `CLOSING` and runs `closeIfNeeded`.  On return the state
is `CLOSING` (frame still queued) or `CLOSED` (the queue, ending with that frame, was
handed to the socket), never `ALIVE`. -/
theorem close_alive (ext : Externals) (ew : exception_wrapper) (c : RocketServerConnection)
    (s : Socket) (hstate : c.state_ = ConnectionState.ALIVE) (hsock : c.socket_ = some s) :
    ∃ sent closed : RocketServerConnection,
      sent = send { c with socket_ := some { s with readCB := false } }
        (IOBuf.ErrorFrame 0 (closeException ext ew).1 (closeException ext ew).2) ∧
      sent.socket_ = some { readCB := false } ∧
      sent.state_ = ConnectionState.ALIVE ∧
      sent.batchWriteLoopCallback_.bufQueue = c.batchWriteLoopCallback_.bufQueue ++
        [IOBuf.ErrorFrame 0 (closeException ext ew).1 (closeException ext ew).2] ∧
      sent.batchWriteLoopCallback_.scheduled = true ∧
      close ext ew c = some closed ∧
      closed = closeIfNeeded { sent with state_ := ConnectionState.CLOSING } ∧
      closed.state_ ≠ ConnectionState.ALIVE ∧
      ((closed.state_ = ConnectionState.CLOSING ∧
          closed.socket_ = some { readCB := false } ∧
          closed.batchWriteLoopCallback_.bufQueue = c.batchWriteLoopCallback_.bufQueue ++
            [IOBuf.ErrorFrame 0 (closeException ext ew).1 (closeException ext ew).2]) ∨
        (closed.state_ = ConnectionState.CLOSED ∧
          Event.writeChain (c.batchWriteLoopCallback_.bufQueue ++
            [IOBuf.ErrorFrame 0 (closeException ext ew).1 (closeException ext ew).2])
            ∈ closed.trace)) := by
  have hsend := send_of_alive { c with socket_ := some { s with readCB := false } }
    (IOBuf.ErrorFrame 0 (closeException ext ew).1 (closeException ext ew).2) hstate
  refine ⟨_, _, rfl, ?_, ?_, ?_, ?_, ?_, rfl, ?_⟩
  · rw [hsend]
  · rw [hsend]; exact hstate
  · rw [hsend]
  · rw [hsend]
  · simp [close, hsock, sendError]
  · rw [hsend]
    by_cases hg : c.inflight_ = c.streams_.length
    · have hclosed := closeIfNeeded_eq_of_guard
        { socket_ := some { readCB := false }, state_ := ConnectionState.CLOSING,
          setupFrameReceived_ := c.setupFrameReceived_, inflight_ := c.inflight_,
          streams_ := c.streams_, partialFrames_ := c.partialFrames_,
          batchWriteLoopCallback_ :=
            { bufQueue := c.batchWriteLoopCallback_.bufQueue ++
                [IOBuf.ErrorFrame 0 (closeException ext ew).1 (closeException ext ew).2],
              scheduled := true },
          manager := c.manager,
          trace := c.trace ++
            (if c.batchWriteLoopCallback_.scheduled then [] else [Event.runInLoop]) }
        rfl hg
      simp only [hclosed]
      simp
    · have hopen := closeIfNeeded_skip
        { socket_ := some { readCB := false }, state_ := ConnectionState.CLOSING,
          setupFrameReceived_ := c.setupFrameReceived_, inflight_ := c.inflight_,
          streams_ := c.streams_, partialFrames_ := c.partialFrames_,
          batchWriteLoopCallback_ :=
            { bufQueue := c.batchWriteLoopCallback_.bufQueue ++
                [IOBuf.ErrorFrame 0 (closeException ext ew).1 (closeException ext ew).2],
              scheduled := true },
          manager := c.manager,
          trace := c.trace ++
            (if c.batchWriteLoopCallback_.scheduled then [] else [Event.runInLoop]) }
        (Or.inr hg)
      simp only [hopen]
      simp

/-- Handler calls are the only events counted by `setupCalls`. -/
theorem isHandleSetupFrame_le (e : Event) (h : e.isHandlerCall = false) :
    e.isHandleSetupFrame = false := by
  cases e <;> simp_all [Event.isHandlerCall, Event.isHandleSetupFrame]

/-- Events that are not `handleSetupFrame` calls do not change `setupCalls`. -/
theorem setupCalls_append (t d : List Event) (h : ∀ e ∈ d, e.isHandleSetupFrame = false) :
    setupCalls (t ++ d) = setupCalls t := by
  unfold setupCalls
  rw [List.filter_append]
  have : d.filter Event.isHandleSetupFrame = [] := by
    rw [List.filter_eq_nil_iff]
    intro e he
    simp [h e he]
  simp [this]

/-- A trace without handler calls has no `handleSetupFrame` call. -/
theorem setupCalls_eq_zero (t : List Event) (h : ∀ e ∈ t, e.isHandlerCall = false) :
    setupCalls t = 0 := by
  have := setupCalls_append [] t (fun e he => isHandleSetupFrame_le e (h e he))
  simpa [setupCalls] using this

/-- What `send` can change: the write batch, and the trace by at most one `runInLoop`. -/
theorem send_cases (c : RocketServerConnection) (data : IOBuf) :
    ∃ q d, send c data = { c with batchWriteLoopCallback_ := q, trace := c.trace ++ d } ∧
      ∀ e ∈ d, e = Event.runInLoop := by
  by_cases h : c.state_ = ConnectionState.ALIVE
  · refine ⟨_, _, send_of_alive c data h, ?_⟩
    intro e he
    split at he <;> simp_all
  · exact ⟨c.batchWriteLoopCallback_, [], by simp [send_of_not_alive c data h], by simp⟩

/-- What `closeIfNeeded` can change: either nothing, or it moves a `CLOSING` connection to
`CLOSED`, empties the registry and drops the socket.  It never calls the handler, and calls
a subscriber only if streams are registered. -/
theorem closeIfNeeded_cases (c : RocketServerConnection) :
    (closeIfNeeded c).setupFrameReceived_ = c.setupFrameReceived_ ∧
    (closeIfNeeded c).partialFrames_ = c.partialFrames_ ∧
    (closeIfNeeded c).inflight_ = c.inflight_ ∧
    ((closeIfNeeded c).streams_ = c.streams_ ∨ (closeIfNeeded c).streams_ = []) ∧
    (closeIfNeeded c = c ∨
      (c.state_ = ConnectionState.CLOSING ∧ (closeIfNeeded c).state_ = ConnectionState.CLOSED ∧
        (closeIfNeeded c).socket_ = none)) ∧
    ∃ d, (closeIfNeeded c).trace = c.trace ++ d ∧
      ∀ e ∈ d, e.isHandlerCall = false ∧ (e.isFrameProcessing = true → c.streams_ ≠ []) := by
  by_cases hg : c.state_ = ConnectionState.CLOSING ∧ c.inflight_ = c.streams_.length
  · rw [closeIfNeeded_eq_of_guard c hg.1 hg.2]
    refine ⟨rfl, rfl, rfl, Or.inr rfl, Or.inr ⟨hg.1, rfl, rfl⟩,
      c.streams_.map (fun p => Event.cancel p.1)
        ++ ((if c.batchWriteLoopCallback_.scheduled then
              [Event.cancelLoopCallback, Event.writeChain c.batchWriteLoopCallback_.bufQueue]
            else [])
        ++ ((if c.manager then [Event.removeConnection] else []) ++ [Event.destroy])), ?_, ?_⟩
    · simp only [List.append_assoc]
    · intro e he
      simp only [List.mem_append, List.mem_map] at he
      rcases he with ⟨p, hp, rfl⟩ | he | he | he
      · refine ⟨rfl, fun _ hnil => ?_⟩
        rw [hnil] at hp
        simp at hp
      · split at he <;> simp at he
        rcases he with rfl | rfl <;> simp [Event.isHandlerCall, Event.isFrameProcessing]
      · split at he <;> simp at he
        subst he
        simp [Event.isHandlerCall, Event.isFrameProcessing]
      · simp at he
        subst he
        simp [Event.isHandlerCall, Event.isFrameProcessing]
  · have hnoop : closeIfNeeded c = c := by
      unfold closeIfNeeded
      rw [if_pos]
      by_cases hs : c.state_ = ConnectionState.CLOSING
      · right; exact fun hi => hg ⟨hs, hi⟩
      · left; exact hs
    rw [hnoop]
    exact ⟨rfl, rfl, rfl, Or.inl rfl, Or.inl rfl, [], by simp, by simp⟩

/-- What `close` can change: the read callback, the write batch, the state, and, through
`closeIfNeeded`, the registry, the manager registration and the socket.  It calls neither
the handler nor, unless streams are registered, any subscriber. -/
theorem close_cases (ext : Externals) (ew : exception_wrapper)
    (c c1 : RocketServerConnection) (h : close ext ew c = some c1) :
    c.socket_ ≠ none ∧
    c1.setupFrameReceived_ = c.setupFrameReceived_ ∧
    c1.partialFrames_ = c.partialFrames_ ∧
    c1.inflight_ = c.inflight_ ∧
    (c1.streams_ = c.streams_ ∨ c1.streams_ = []) ∧
    ((c1.state_ = ConnectionState.CLOSING ∧ c1.socket_ = some { readCB := false }) ∨
      (c1.state_ = ConnectionState.CLOSED ∧ c1.socket_ = none)) ∧
    ∃ d, c1.trace = c.trace ++ d ∧
      ∀ e ∈ d, e.isHandlerCall = false ∧ (e.isFrameProcessing = true → c.streams_ ≠ []) := by
  unfold close at h
  cases hs : c.socket_ with
  | none => simp [hs] at h
  | some s =>
    simp only [hs, Option.some.injEq] at h
    refine ⟨by simp, ?_⟩
    obtain ⟨q, d, hsend, hd⟩ := send_cases { c with socket_ := some { s with readCB := false } }
      (IOBuf.ErrorFrame 0 (closeException ext ew).1 (closeException ext ew).2)
    simp only [sendError, hsend] at h
    obtain ⟨h1, h2, h3, h4, h5, d2, h6, hd2⟩ := closeIfNeeded_cases
      { socket_ := some { readCB := false }, state_ := ConnectionState.CLOSING,
        setupFrameReceived_ := c.setupFrameReceived_, inflight_ := c.inflight_,
        streams_ := c.streams_, partialFrames_ := c.partialFrames_,
        batchWriteLoopCallback_ := q, manager := c.manager, trace := c.trace ++ d }
    rw [h] at h1 h2 h3 h4 h5 h6
    refine ⟨h1, h2, h3, h4, ?_, d ++ d2, by rw [h6, List.append_assoc], ?_⟩
    · rcases h5 with h5 | ⟨_, h5, h5s⟩
      · left; rw [h5]; exact ⟨rfl, rfl⟩
      · right; exact ⟨h5, h5s⟩
    · intro e he
      rcases List.mem_append.1 he with he | he
      · rw [hd e he]; simp [Event.isHandlerCall, Event.isFrameProcessing]
      · exact hd2 e he

/-- Dispatching a complete request leaves the setup flag, the state, the socket and
`inflight_` alone and never calls `handleSetupFrame`. -/
theorem onFullFrame_cases (c : RocketServerConnection) (context : RocketServerFrameContext) :
    (onFullFrame c context).setupFrameReceived_ = c.setupFrameReceived_ ∧
    (onFullFrame c context).state_ = c.state_ ∧
    (onFullFrame c context).socket_ = c.socket_ ∧
    (onFullFrame c context).inflight_ = c.inflight_ ∧
    ∃ d, (onFullFrame c context).trace = c.trace ++ d ∧
      ∀ e ∈ d, e.isHandleSetupFrame = false := by
  unfold onFullFrame
  split <;>
    simp [emit, createStreamSubscriber, Event.isHandleSetupFrame]

/-- A request frame is dispatched or parked; see `onFullFrame_cases`. -/
theorem onRequestFrame_cases (c : RocketServerConnection) (streamId : StreamId)
    (kind : RequestKind) (frame : Frame) :
    (onRequestFrame c streamId kind frame).setupFrameReceived_ = c.setupFrameReceived_ ∧
    (onRequestFrame c streamId kind frame).state_ = c.state_ ∧
    (onRequestFrame c streamId kind frame).socket_ = c.socket_ ∧
    (onRequestFrame c streamId kind frame).inflight_ = c.inflight_ ∧
    ∃ d, (onRequestFrame c streamId kind frame).trace = c.trace ++ d ∧
      ∀ e ∈ d, e.isHandleSetupFrame = false := by
  unfold onRequestFrame
  split
  · exact ⟨rfl, rfl, rfl, rfl, [], by simp, by simp⟩
  · exact onFullFrame_cases c _

/-- A continuation fragment is appended and the request dispatched or kept parked; see
`onFullFrame_cases`. -/
theorem onPayloadFrame_cases (c : RocketServerConnection)
    (context : RocketServerFrameContext) (frame : Frame) :
    (onPayloadFrame c context frame).setupFrameReceived_ = c.setupFrameReceived_ ∧
    (onPayloadFrame c context frame).state_ = c.state_ ∧
    (onPayloadFrame c context frame).socket_ = c.socket_ ∧
    (onPayloadFrame c context frame).inflight_ = c.inflight_ ∧
    ∃ d, (onPayloadFrame c context frame).trace = c.trace ++ d ∧
      ∀ e ∈ d, e.isHandleSetupFrame = false := by
  unfold onPayloadFrame
  split
  · exact ⟨rfl, rfl, rfl, rfl, [Event.onPayloadFrame context.streamId frame.payload],
      by simp [emit], by simp [Event.isHandleSetupFrame]⟩
  · obtain ⟨h1, h2, h3, h4, d, h5, h6⟩ := onFullFrame_cases
      (emit c (Event.onPayloadFrame context.streamId frame.payload))
      { context with fragments := context.fragments ++ [frame.payload] }
    refine ⟨h1, h2, h3, h4, Event.onPayloadFrame context.streamId frame.payload :: d, ?_, ?_⟩
    · rw [h5]; simp [emit]
    · intro e he
      rcases List.mem_cons.1 he with rfl | he
      · rfl
      · exact h6 e he

/-- A batch of sends changes only the write batch and the trace, and calls only
`runInLoop`. -/
theorem sendAll_cases (bufs : List IOBuf) (c : RocketServerConnection) :
    ∃ q d, sendAll c bufs = { c with batchWriteLoopCallback_ := q, trace := c.trace ++ d } ∧
      ∀ e ∈ d, e = Event.runInLoop := by
  induction bufs generalizing c with
  | nil => exact ⟨c.batchWriteLoopCallback_, [], by simp [sendAll], by simp⟩
  | cons b rest ih =>
    obtain ⟨q1, d1, h1, hd1⟩ := send_cases c b
    obtain ⟨q2, d2, h2, hd2⟩ := ih (send c b)
    refine ⟨q2, d1 ++ d2, ?_, ?_⟩
    · rw [sendAll_cons, h2, h1]
      simp
    · intro e he
      rcases List.mem_append.1 he with he | he
      · exact hd1 e he
      · exact hd2 e he

/-- On an `ALIVE` connection a batch of sends appends the buffers to the queue in order
and leaves the state `ALIVE`. -/
theorem sendAll_queue (bufs : List IOBuf) (c : RocketServerConnection)
    (h : c.state_ = ConnectionState.ALIVE) :
    (sendAll c bufs).batchWriteLoopCallback_.bufQueue =
      c.batchWriteLoopCallback_.bufQueue ++ bufs := by
  induction bufs generalizing c with
  | nil => simp [sendAll]
  | cons b rest ih =>
    rw [sendAll_cons, ih (send c b) (by rw [send_of_alive c b h]; exact h),
      send_of_alive c b h]
    simp

/-- A subscriber delivering the signals of its source sends the frames of the emission, in
order, and removes its own entry from the registry when the stream ends. -/
theorem deliver_eq (c : RocketServerConnection) (streamId : StreamId) (e : Emission) :
    RocketServerStreamSubscriber.deliver c streamId e =
      { sendAll c (e.frames streamId) with
        streams_ := if e.ending.isSome then erase c.streams_ streamId else c.streams_ } := by
  have hfold : ∀ (items : List Payload) (c0 : RocketServerConnection),
      items.foldl (fun acc item => sendPayload acc streamId item true false) c0 =
        sendAll c0 (items.map (fun item => IOBuf.PayloadFrame streamId item true false)) := by
    intro items
    induction items with
    | nil => intro c0; rfl
    | cons item rest ih =>
      intro c0
      simp only [List.foldl_cons, List.map_cons, sendAll_cons, ih]
      rfl
  have hstreams : ∀ (bufs : List IOBuf) (c0 : RocketServerConnection),
      (sendAll c0 bufs).streams_ = c0.streams_ := by
    intro bufs c0
    obtain ⟨q, d, h, _⟩ := sendAll_cases bufs c0
    rw [h]
  obtain ⟨items, ending⟩ := e
  unfold RocketServerStreamSubscriber.deliver Emission.frames
  simp only [hfold]
  cases ending with
  | none =>
    obtain ⟨q, d, h, _⟩ := sendAll_cases
      (items.map (fun item => IOBuf.PayloadFrame streamId item true false)) c
    simp [h]
  | some ending =>
    cases ending with
    | complete =>
      simp only [sendPayload, Option.isSome_some, if_true]
      rw [show send (sendAll c (items.map (fun item =>
            IOBuf.PayloadFrame streamId item true false)))
            (IOBuf.PayloadFrame streamId { metadata := none, data := [] } false true) =
          sendAll c (items.map (fun item => IOBuf.PayloadFrame streamId item true false) ++
            [IOBuf.PayloadFrame streamId { metadata := none, data := [] } false true]) by
        simp [sendAll, List.foldl_append]]
      rw [hstreams]
    | error code message =>
      simp only [sendError, Option.isSome_some, if_true]
      rw [show send (sendAll c (items.map (fun item =>
            IOBuf.PayloadFrame streamId item true false)))
            (IOBuf.ErrorFrame streamId code message) =
          sendAll c (items.map (fun item => IOBuf.PayloadFrame streamId item true false) ++
            [IOBuf.ErrorFrame streamId code message]) by
        simp [sendAll, List.foldl_append]]
      rw [hstreams]

/-- What `request(n)` on a registered subscriber can change: the call is recorded, frames
may be queued (calling only `runInLoop`), and the registry keeps its entries or loses the
entry of that stream. -/
theorem request_cases (ext : Externals) (c : RocketServerConnection) (streamId : StreamId)
    (n : Nat) :
    ∃ q d, RocketServerStreamSubscriber.request ext c streamId n =
        { c with
          batchWriteLoopCallback_ := q
          trace := c.trace ++ Event.request streamId n :: d
          streams_ := if (ext.pull c.trace streamId n).ending.isSome then
              erase c.streams_ streamId else c.streams_ } ∧
      ∀ e ∈ d, e = Event.runInLoop := by
  obtain ⟨q, d, h, hd⟩ := sendAll_cases ((ext.pull c.trace streamId n).frames streamId)
    (emit c (Event.request streamId n))
  refine ⟨q, d, ?_, hd⟩
  unfold RocketServerStreamSubscriber.request
  rw [deliver_eq, h]
  simp [emit]

/-- The dispatch switch either closes the connection or leaves the setup flag, the state,
the socket and `inflight_` alone; `handleSetupFrame` is called exactly for a SETUP
frame. -/
theorem handleFrameSwitch_cases (ext : Externals) (c c1 : RocketServerConnection)
    (frame : Frame) (h : handleFrameSwitch ext c frame = some c1) :
    (∃ ew, frame.frameType ≠ FrameType.SETUP ∧ close ext ew c = some c1) ∨
    (c1.setupFrameReceived_ = c.setupFrameReceived_ ∧
      c1.state_ = c.state_ ∧ c1.socket_ = c.socket_ ∧ c1.inflight_ = c.inflight_ ∧
      ∃ d, c1.trace = c.trace ++ d ∧
        (frame.frameType = FrameType.SETUP → d = [Event.handleSetupFrame frame.streamId]) ∧
        (frame.frameType ≠ FrameType.SETUP → ∀ e ∈ d, e.isHandleSetupFrame = false)) := by
  unfold handleFrameSwitch at h
  split at h
  · right
    simp only [Option.some.injEq] at h
    subst h
    exact ⟨rfl, rfl, rfl, rfl, _, rfl, by simp_all, by simp_all⟩
  · right
    simp only [Option.some.injEq] at h
    subst h
    obtain ⟨h1, h2, h3, h4, d, h5, h6⟩ :=
      onRequestFrame_cases c frame.streamId RequestKind.RESPONSE frame
    exact ⟨h1, h2, h3, h4, d, h5, by simp_all, fun _ => h6⟩
  · right
    simp only [Option.some.injEq] at h
    subst h
    obtain ⟨h1, h2, h3, h4, d, h5, h6⟩ :=
      onRequestFrame_cases c frame.streamId RequestKind.FNF frame
    exact ⟨h1, h2, h3, h4, d, h5, by simp_all, fun _ => h6⟩
  · right
    simp only [Option.some.injEq] at h
    subst h
    obtain ⟨h1, h2, h3, h4, d, h5, h6⟩ :=
      onRequestFrame_cases c frame.streamId RequestKind.STREAM frame
    exact ⟨h1, h2, h3, h4, d, h5, by simp_all, fun _ => h6⟩
  · right
    dsimp only at h
    cases hl : List.lookup frame.streamId c.streams_ <;>
      simp only [hl, Option.some.injEq] at h <;> subst h
    · exact ⟨rfl, rfl, rfl, rfl, [], by simp, by simp_all, by simp⟩
    · obtain ⟨q, d, hreq, hd⟩ :=
        request_cases ext c frame.streamId frame.requestN
      rw [hreq]
      refine ⟨rfl, rfl, rfl, rfl, Event.request frame.streamId frame.requestN :: d, rfl,
        by simp_all, fun _ e he => ?_⟩
      rcases List.mem_cons.1 he with rfl | he
      · rfl
      · rw [hd e he]
        rfl
  · right
    dsimp only at h
    cases hl : List.lookup frame.streamId c.streams_ <;>
      simp only [hl, Option.some.injEq] at h <;> subst h
    · exact ⟨rfl, rfl, rfl, rfl, [], by simp, by simp_all, by simp⟩
    · exact ⟨rfl, rfl, rfl, rfl, [Event.cancel frame.streamId],
        by simp [emit], by simp_all, by simp [Event.isHandleSetupFrame]⟩
  · dsimp only at h
    cases hl : List.lookup frame.streamId c.partialFrames_ with
    | none =>
      simp only [hl] at h
      left
      exact ⟨_, by simp_all, h⟩
    | some frameContext =>
      simp only [hl, Option.some.injEq] at h
      subst h
      right
      obtain ⟨h1, h2, h3, h4, d, h5, h6⟩ := onPayloadFrame_cases c frameContext frame
      refine ⟨?_, ?_, ?_, ?_, d, ?_, by simp_all, fun _ => h6⟩ <;> split <;> assumption
  · left
    rename_i hne _ _ _ _ _ _
    exact ⟨_, hne, h⟩

/-- A freshly constructed connection satisfies the setup invariant. -/
theorem create_setupInvariant (managed : Bool) :
    SetupInvariant (RocketServerConnection.create managed) := by
  refine ⟨by simp [RocketServerConnection.create, setupCalls], fun _ => ?_⟩
  simp [RocketServerConnection.create]

/-- Before SETUP has been accepted, any other frame is answered by `close` alone. -/
theorem handleFrame_before_setup (ext : Externals) (c : RocketServerConnection)
    (frame : Frame) (hs : c.setupFrameReceived_ = false)
    (hf : frame.frameType ≠ FrameType.SETUP) :
    handleFrame ext c frame =
      close ext (some (Exception.RocketException ErrorCode.INVALID_SETUP
        "First frame must be SETUP frame")) c := by
  simp [handleFrame, hs, hf]

/-- After SETUP has been accepted, a further SETUP frame is answered by `close` alone. -/
theorem handleFrame_second_setup (ext : Externals) (c : RocketServerConnection)
    (frame : Frame) (hs : c.setupFrameReceived_ = true)
    (hf : frame.frameType = FrameType.SETUP) :
    handleFrame ext c frame =
      close ext (some (Exception.RocketException ErrorCode.INVALID_SETUP
        "More than one SETUP frame received")) c := by
  simp [handleFrame, hs, hf]

/-- A `close` keeps the setup invariant and the setup flag. -/
theorem close_setupInvariant (ext : Externals) (ew : exception_wrapper)
    (c c1 : RocketServerConnection) (hinv : SetupInvariant c)
    (h : close ext ew c = some c1) :
    SetupInvariant c1 ∧ c1.setupFrameReceived_ = c.setupFrameReceived_ := by
  obtain ⟨_, h1, h2, _, h4, _, d, h6, hd⟩ := close_cases ext ew c c1 h
  refine ⟨⟨?_, fun hs => ?_⟩, h1⟩
  · rw [h6, setupCalls_append _ _ (fun e he => isHandleSetupFrame_le e (hd e he).1)]
    exact hinv.1
  · rw [h1] at hs
    obtain ⟨hst, hpf, htr⟩ := hinv.2 hs
    refine ⟨?_, by rw [h2, hpf], ?_⟩
    · rcases h4 with h4 | h4
      · rw [h4, hst]
      · exact h4
    · intro e he
      rw [h6] at he
      rcases List.mem_append.1 he with he | he
      · exact htr e he
      · refine ⟨?_, (hd e he).1⟩
        cases hp : e.isFrameProcessing
        · rfl
        · exact absurd hst ((hd e he).2 hp)

/-- One `handleFrame` keeps the setup invariant and never resets the setup flag. -/
theorem handleFrame_setupInvariant (ext : Externals) (c c1 : RocketServerConnection)
    (frame : Frame) (hinv : SetupInvariant c) (h : handleFrame ext c frame = some c1) :
    SetupInvariant c1 ∧ (c.setupFrameReceived_ = true → c1.setupFrameReceived_ = true) := by
  cases hs : c.setupFrameReceived_
  · by_cases hf : frame.frameType = FrameType.SETUP
    · have h' : handleFrameSwitch ext { c with setupFrameReceived_ := true } frame = some c1 := by
        simpa [handleFrame, hs, hf] using h
      rcases handleFrameSwitch_cases ext _ c1 frame h' with ⟨_, hne, _⟩ | ⟨h1, _, _, _, d, h5, h6, _⟩
      · exact absurd hf hne
      · have hd := h6 hf
        subst hd
        refine ⟨⟨?_, fun hs1 => ?_⟩, fun hc => by simp at hc⟩
        · rw [h5]
          have h0 := setupCalls_eq_zero c.trace (fun e he => ((hinv.2 hs).2.2 e he).2)
          simp only [setupCalls, List.filter_append, List.length_append] at h0 ⊢
          simp [h0, Event.isHandleSetupFrame]
        · rw [h1] at hs1
          simp at hs1
    · rw [handleFrame_before_setup ext c frame hs hf] at h
      obtain ⟨hi, _⟩ := close_setupInvariant ext _ c c1 hinv h
      exact ⟨hi, fun hc => by simp at hc⟩
  · by_cases hf : frame.frameType = FrameType.SETUP
    · rw [handleFrame_second_setup ext c frame hs hf] at h
      obtain ⟨hi, hflag⟩ := close_setupInvariant ext _ c c1 hinv h
      exact ⟨hi, fun _ => by rw [hflag, hs]⟩
    · have h' : handleFrameSwitch ext c frame = some c1 := by
        simpa [handleFrame, hs, hf] using h
      rcases handleFrameSwitch_cases ext _ c1 frame h' with ⟨ew, _, hc⟩ | ⟨h1, _, _, _, d, h5, _, h7⟩
      · obtain ⟨hi, hflag⟩ := close_setupInvariant ext ew c c1 hinv hc
        exact ⟨hi, fun _ => by rw [hflag, hs]⟩
      · have hflag : c1.setupFrameReceived_ = true := by rw [h1, hs]
        refine ⟨⟨?_, fun hs1 => ?_⟩, fun _ => hflag⟩
        · rw [h5, setupCalls_append _ _ (h7 hf)]
          exact hinv.1
        · rw [hflag] at hs1
          simp at hs1

/-- Any sequence of frames keeps the setup invariant and never resets the setup flag. -/
theorem handleFrames_setupInvariant (ext : Externals) (frames : List Frame)
    (c c1 : RocketServerConnection) (hinv : SetupInvariant c)
    (h : handleFrames ext c frames = some c1) :
    SetupInvariant c1 ∧ (c.setupFrameReceived_ = true → c1.setupFrameReceived_ = true) := by
  induction frames generalizing c with
  | nil =>
    simp only [handleFrames, Option.some.injEq] at h
    subst h
    exact ⟨hinv, id⟩
  | cons f rest ih =>
    simp only [handleFrames] at h
    cases hstep : handleFrame ext c f with
    | none => simp [hstep] at h
    | some c2 =>
      simp only [hstep, Option.some_bind] at h
      obtain ⟨hi2, hflag2⟩ := handleFrame_setupInvariant ext c c2 f hinv hstep
      obtain ⟨hi1, hflag1⟩ := ih c2 hi2 h
      exact ⟨hi1, fun hc => hflag1 (hflag2 hc)⟩

/-- C3: for every sequence of frames fed to `handleFrame` from a freshly constructed
connection, in the state reached: (a) once `setupFrameReceived_` is true it stays true
under every further sequence of frames, so it changes from false to true at most once;
(b) `handleSetupFrame` has been called at most once; (c) while `setupFrameReceived_` is
false nothing has been dispatched to the handler, applied to a stream or applied to a
partial frame, both maps are empty, and a REQUEST_RESPONSE, REQUEST_FNF, REQUEST_STREAM,
REQUEST_N, CANCEL or PAYLOAD frame arriving then is answered by `close` alone, which leaves
all of that as it is. -/
theorem setup_rule (ext : Externals) (managed : Bool) (frames : List Frame)
    (c : RocketServerConnection)
    (h : handleFrames ext (RocketServerConnection.create managed) frames = some c) :
    (∀ more c1, handleFrames ext c more = some c1 →
      c.setupFrameReceived_ = true → c1.setupFrameReceived_ = true) ∧
    setupCalls c.trace ≤ 1 ∧
    (c.setupFrameReceived_ = false →
      (c.streams_ = [] ∧ c.partialFrames_ = [] ∧
        ∀ e ∈ c.trace, e.isFrameProcessing = false ∧ e.isHandlerCall = false) ∧
      ∀ frame, frame.frameType ∈ requestFrameTypes →
        handleFrame ext c frame =
          close ext (some (Exception.RocketException ErrorCode.INVALID_SETUP
            "First frame must be SETUP frame")) c ∧
        ∀ c1, handleFrame ext c frame = some c1 →
          c1.setupFrameReceived_ = false ∧ c1.streams_ = [] ∧ c1.partialFrames_ = [] ∧
          ∀ e ∈ c1.trace, e.isFrameProcessing = false ∧ e.isHandlerCall = false) := by
  obtain ⟨hinv, _⟩ := handleFrames_setupInvariant ext frames _ c
    (create_setupInvariant managed) h
  refine ⟨fun more c1 hmore => (handleFrames_setupInvariant ext more c c1 hinv hmore).2,
    hinv.1, fun hs => ⟨hinv.2 hs, fun frame hmem => ?_⟩⟩
  have hf : frame.frameType ≠ FrameType.SETUP := by
    intro hsetup
    rw [hsetup] at hmem
    simp [requestFrameTypes] at hmem
  refine ⟨handleFrame_before_setup ext c frame hs hf, fun c1 hstep => ?_⟩
  rw [handleFrame_before_setup ext c frame hs hf] at hstep
  obtain ⟨hi, hflag⟩ := close_setupInvariant ext _ c c1 hinv hstep
  rw [hs] at hflag
  exact ⟨hflag, hi.2 hflag⟩

/-- C3 (instances): after one SETUP frame on a fresh connection `handleSetupFrame` has been
called once; and on the fresh connection itself (no frame yet) a REQUEST_RESPONSE frame is
answered by `close` alone. -/
theorem setup_rule_witness :
    handleFrames Externals.sample (RocketServerConnection.create true)
      [Frame.header 0 FrameType.SETUP] = some (RocketServerConnection.afterSetup true) ∧
    setupCalls (RocketServerConnection.afterSetup true).trace ≤ 1 ∧
    handleFrames Externals.sample (RocketServerConnection.create true) [] =
      some (RocketServerConnection.create true) ∧
    handleFrame Externals.sample (RocketServerConnection.create true)
        (Frame.requestResponse 1 "error:application") =
      close Externals.sample (some (Exception.RocketException ErrorCode.INVALID_SETUP
        "First frame must be SETUP frame")) (RocketServerConnection.create true) :=
  ⟨rfl,
    (setup_rule Externals.sample true [Frame.header 0 FrameType.SETUP]
      (RocketServerConnection.afterSetup true) rfl).2.1,
    rfl,
    (((setup_rule Externals.sample true [] (RocketServerConnection.create true) rfl).2.2
      rfl).2 (Frame.requestResponse 1 "error:application") (by decide)).1⟩

/-- A freshly constructed connection satisfies the socket invariant. -/
theorem create_socketInvariant (managed : Bool) :
    SocketInvariant (RocketServerConnection.create managed) := by
  intro h
  simp [RocketServerConnection.create] at h

/-- The state never moves backwards under `close`. -/
theorem close_monotonic (ext : Externals) (ew : exception_wrapper)
    (c c1 : RocketServerConnection) (hinv : SocketInvariant c)
    (h : close ext ew c = some c1) :
    c.state_.rank ≤ c1.state_.rank ∧ SocketInvariant c1 := by
  obtain ⟨hsock, _, _, _, _, hst, _⟩ := close_cases ext ew c c1 h
  have hc : c.state_.rank ≤ 1 := by
    cases hcs : c.state_
    · simp [ConnectionState.rank]
    · simp [ConnectionState.rank]
    · exact absurd (hinv hcs) hsock
  rcases hst with ⟨h1, _⟩ | ⟨h1, h2⟩
  · refine ⟨by rw [h1]; simpa [ConnectionState.rank] using hc, fun hcl => ?_⟩
    rw [h1] at hcl
    cases hcl
  · refine ⟨?_, fun _ => h2⟩
    rw [h1]
    exact le_trans hc (by decide)

/-- The state never moves backwards under `closeIfNeeded`. -/
theorem closeIfNeeded_monotonic (c : RocketServerConnection) (hinv : SocketInvariant c) :
    c.state_.rank ≤ (closeIfNeeded c).state_.rank ∧ SocketInvariant (closeIfNeeded c) := by
  obtain ⟨_, _, _, _, h5, _⟩ := closeIfNeeded_cases c
  rcases h5 with h5 | ⟨h5, h6, h7⟩
  · rw [h5]; exact ⟨le_refl _, hinv⟩
  · exact ⟨by rw [h5, h6]; simp [ConnectionState.rank], fun _ => h7⟩

/-- The state never moves backwards under `handleFrame`. -/
theorem handleFrame_monotonic (ext : Externals) (c c1 : RocketServerConnection)
    (frame : Frame) (hinv : SocketInvariant c) (h : handleFrame ext c frame = some c1) :
    c.state_.rank ≤ c1.state_.rank ∧ SocketInvariant c1 := by
  unfold handleFrame at h
  split at h
  · split at h
    · exact close_monotonic ext _ c c1 hinv h
    · rcases handleFrameSwitch_cases ext _ c1 frame h with ⟨_, hne, _⟩ | ⟨_, h2, h3, _⟩
      · simp_all
      · exact ⟨by rw [h2], fun hcl => by rw [h3]; exact hinv (by rw [← h2]; exact hcl)⟩
  · split at h
    · exact close_monotonic ext _ c c1 hinv h
    · rcases handleFrameSwitch_cases ext _ c1 frame h with ⟨ew, _, hc⟩ | ⟨_, h2, h3, _⟩
      · exact close_monotonic ext ew c c1 hinv hc
      · exact ⟨by rw [h2], fun hcl => by rw [h3]; exact hinv (by rw [← h2]; exact hcl)⟩

/-- C4: `ConnectionState` is monotonic in the order `ALIVE < CLOSING < CLOSED`.  For
every connection (the socket is held until the move to `CLOSED`) and every operation
(`handleFrame`, `send`, `close`, `closeIfNeeded`, `timeoutExpired`, `dropConnection`,
`closeWhenIdle`, `writeErr`), the state after the operation is never earlier than the state
before it; in particular `CLOSED` is never left.  The operation also re-establishes the
socket invariant, so the statement carries over to every sequence of operations. -/
theorem state_monotonic (ext : Externals) (c c1 : RocketServerConnection) (op : Operation)
    (hinv : SocketInvariant c) (h : op.apply ext c = some c1) :
    c.state_.rank ≤ c1.state_.rank ∧
    (c.state_ = ConnectionState.CLOSED → c1.state_ = ConnectionState.CLOSED) ∧
    SocketInvariant c1 := by
  have key : c.state_.rank ≤ c1.state_.rank ∧ SocketInvariant c1 := by
    cases op with
    | handleFrame frame => exact handleFrame_monotonic ext c c1 frame hinv h
    | send data =>
      simp only [Operation.apply, Option.some.injEq] at h
      subst h
      obtain ⟨q, d, hs, _⟩ := send_cases c data
      rw [hs]
      exact ⟨le_refl _, hinv⟩
    | close ew => exact close_monotonic ext ew c c1 hinv h
    | closeIfNeeded =>
      simp only [Operation.apply, Option.some.injEq] at h
      subst h
      exact closeIfNeeded_monotonic c hinv
    | timeoutExpired =>
      simp only [Operation.apply, timeoutExpired] at h
      split at h
      · exact close_monotonic ext _ c c1 hinv h
      · simp only [Option.some.injEq] at h
        subst h
        exact ⟨le_refl _, hinv⟩
    | dropConnection => exact close_monotonic ext _ c c1 hinv h
    | closeWhenIdle => exact close_monotonic ext _ c c1 hinv h
    | writeErr bytesWritten exWhat => exact close_monotonic ext _ c c1 hinv h
  refine ⟨key.1, fun hcl => ?_, key.2⟩
  have hr := key.1
  rw [hcl] at hr
  cases hc1 : c1.state_ <;> simp_all [ConnectionState.rank]

/-- C4 (instance): dropping a fresh connection moves it from `ALIVE` to `CLOSED`. -/
theorem state_monotonic_witness :
    SocketInvariant (RocketServerConnection.create true) ∧
    (∃ c1, Operation.dropConnection.apply Externals.sample
        (RocketServerConnection.create true) = some c1 ∧
      (RocketServerConnection.create true).state_.rank ≤ c1.state_.rank ∧
      c1.state_ = ConnectionState.CLOSED) :=
  ⟨create_socketInvariant true,
    _, rfl,
    (state_monotonic Externals.sample (RocketServerConnection.create true) _
      Operation.dropConnection (create_socketInvariant true) rfl).1,
    rfl⟩

/-- C8 (instance): closing a fresh connection without an exception. -/
theorem close_alive_witness :
    (RocketServerConnection.create true).state_ = ConnectionState.ALIVE ∧
    (RocketServerConnection.create true).socket_ = some { readCB := true } ∧
    ∃ closed, close Externals.sample none (RocketServerConnection.create true) = some closed ∧
      closed.state_ ≠ ConnectionState.ALIVE ∧
      Event.writeChain [IOBuf.ErrorFrame 0 ErrorCode.CONNECTION_CLOSE "Closing connection"]
        ∈ closed.trace :=
  ⟨rfl, rfl, by
    obtain ⟨_, closed, _, _, _, _, _, h, _, hne, _⟩ :=
      close_alive Externals.sample none (RocketServerConnection.create true)
        { readCB := true } rfl rfl
    refine ⟨closed, h, hne, ?_⟩
    have hc : closed = _ := Option.some.inj (h.symm.trans rfl)
    rw [hc]
    decide⟩

/-- C1 (the code at the failing input): a request/response frame on stream 1 arriving on a
freshly constructed connection.  The connection is closed, nothing reaches the handler and
`setupFrameReceived_` stays false, but the only `ERROR` frame written, on stream 0, carries
`CONNECTION_ERROR`; the `INVALID_SETUP` code given at the call site survives only inside
the `what()` text used as message. -/
theorem first_frame_not_setup_error_frame (ext : Externals) :
    handleFrame ext (RocketServerConnection.create true)
        (Frame.requestResponse 1 "error:application") =
      some
        { socket_ := none
          state_ := ConnectionState.CLOSED
          setupFrameReceived_ := false
          inflight_ := 0
          streams_ := []
          partialFrames_ := []
          batchWriteLoopCallback_ := { bufQueue := [], scheduled := false }
          manager := false
          trace :=
            [Event.runInLoop, Event.cancelLoopCallback,
             Event.writeChain
               [IOBuf.ErrorFrame 0 ErrorCode.CONNECTION_ERROR
                 (ext.what (Exception.RocketException ErrorCode.INVALID_SETUP
                   "First frame must be SETUP frame"))],
             Event.removeConnection, Event.destroy] } := by
  rfl

/-- C2 (the code at the failing input): a second SETUP frame on a connection that has
accepted one.  `handleSetupFrame` is not called again and the connection is closed, but the
`ERROR` frame written on stream 0 carries `CONNECTION_ERROR`, and its message is the
`what()` text of the exception rather than the bare text given at the call site. -/
theorem second_setup_error_frame (ext : Externals) :
    handleFrame ext (RocketServerConnection.afterSetup true)
        (Frame.header 0 FrameType.SETUP) =
      some
        { socket_ := none
          state_ := ConnectionState.CLOSED
          setupFrameReceived_ := true
          inflight_ := 0
          streams_ := []
          partialFrames_ := []
          batchWriteLoopCallback_ := { bufQueue := [], scheduled := false }
          manager := false
          trace :=
            [Event.handleSetupFrame 0, Event.runInLoop, Event.cancelLoopCallback,
             Event.writeChain
               [IOBuf.ErrorFrame 0 ErrorCode.CONNECTION_ERROR
                 (ext.what (Exception.RocketException ErrorCode.INVALID_SETUP
                   "More than one SETUP frame received"))],
             Event.removeConnection, Event.destroy] } := by
  rfl

/-- C10 (the code at the failing input): a PAYLOAD frame on stream 9 with no parked
context.  Nothing reaches the handler, `partialFrames_` is unchanged and the connection is
closed, but the `ERROR` frame written on stream 0 carries `CONNECTION_ERROR`; the
`INVALID` code and the text "Unexpected PAYLOAD frame received on stream 9" survive only
inside the `what()` text used as message. -/
theorem unexpected_payload_error_frame (ext : Externals) :
    handleFrame ext (RocketServerConnection.afterSetup true)
        (Frame.header 9 FrameType.PAYLOAD) =
      some
        { socket_ := none
          state_ := ConnectionState.CLOSED
          setupFrameReceived_ := true
          inflight_ := 0
          streams_ := []
          partialFrames_ := []
          batchWriteLoopCallback_ := { bufQueue := [], scheduled := false }
          manager := false
          trace :=
            [Event.handleSetupFrame 0, Event.runInLoop, Event.cancelLoopCallback,
             Event.writeChain
               [IOBuf.ErrorFrame 0 ErrorCode.CONNECTION_ERROR
                 (ext.what (Exception.RocketException ErrorCode.INVALID
                   "Unexpected PAYLOAD frame received on stream 9"))],
             Event.removeConnection, Event.destroy] } := by
  rfl

/-- After `erase`, the erased key is absent. -/
theorem lookup_erase_self {α : Type} (m : List (StreamId × α)) (k : StreamId) :
    List.lookup k (erase m k) = none := by
  induction m with
  | nil => rfl
  | cons p rest ih =>
    obtain ⟨a, b⟩ := p
    by_cases h : a = k
    · simpa [erase, List.filter_cons, h] using ih
    · have hk : (k == a) = false := by simpa using fun hka => h hka.symm
      simp only [erase] at ih
      simp [erase, List.filter_cons, h, List.lookup_cons, hk, ih]

/-- After `erase`, every other key is looked up as before. -/
theorem lookup_erase_ne {α : Type} (m : List (StreamId × α)) (k j : StreamId) (hj : j ≠ k) :
    List.lookup j (erase m k) = List.lookup j m := by
  induction m with
  | nil => rfl
  | cons p rest ih =>
    obtain ⟨a, b⟩ := p
    simp only [erase] at ih
    by_cases h : a = k
    · subst h
      have hja : (j == a) = false := by simpa using hj
      simp [erase, List.filter_cons, List.lookup_cons, hja, ih]
    · simp [erase, List.filter_cons, h, List.lookup_cons, ih]

/-- After `assign`, a key that was present holds the assigned value. -/
theorem lookup_assign_self {α : Type} (m : List (StreamId × α)) (k : StreamId) (v : α)
    (h : (List.lookup k m).isSome = true) : List.lookup k (assign m k v) = some v := by
  induction m with
  | nil => simp at h
  | cons p rest ih =>
    obtain ⟨a, b⟩ := p
    simp only [assign] at ih
    by_cases hk : a = k
    · simp [assign, hk, List.lookup_cons]
    · have hka : (k == a) = false := by simpa using fun hka => hk hka.symm
      simp only [List.lookup_cons, hka] at h
      simp [assign, hk, List.lookup_cons, hka, ih h]

/-- After `assign`, every other key is looked up as before. -/
theorem lookup_assign_ne {α : Type} (m : List (StreamId × α)) (k j : StreamId) (v : α)
    (hj : j ≠ k) : List.lookup j (assign m k v) = List.lookup j m := by
  induction m with
  | nil => rfl
  | cons p rest ih =>
    obtain ⟨a, b⟩ := p
    simp only [assign] at ih
    by_cases hk : a = k
    · have hja : (j == a) = false := by simpa [hk] using hj
      have hjk : (j == k) = false := by simpa using hj
      simp [assign, hk, List.lookup_cons, hja, hjk, ih]
    · simp [assign, hk, List.lookup_cons, ih]

/-- C11 (the code at the failing input): a frame of an unhandled type (type number 3) on a
connection that has accepted SETUP.  Nothing reaches the handler, neither map changes and
the connection is closed, but the `ERROR` frame written on stream 0 carries
`CONNECTION_ERROR`; the `INVALID` code given at the call site is lost in `close`. -/
theorem unhandled_frame_error_frame (ext : Externals) :
    handleFrame ext (RocketServerConnection.afterSetup true)
        (Frame.header 0 (FrameType.RESERVED 3)) =
      some
        { socket_ := none
          state_ := ConnectionState.CLOSED
          setupFrameReceived_ := true
          inflight_ := 0
          streams_ := []
          partialFrames_ := []
          batchWriteLoopCallback_ := { bufQueue := [], scheduled := false }
          manager := false
          trace :=
            [Event.handleSetupFrame 0, Event.runInLoop, Event.cancelLoopCallback,
             Event.writeChain
               [IOBuf.ErrorFrame 0 ErrorCode.CONNECTION_ERROR
                 (ext.what (Exception.RocketException ErrorCode.INVALID
                   ("Received unhandleable frame type (" ++
                     toString (ext.frameTypeCode (FrameType.RESERVED 3) % 2 ^ 8) ++ ")")))],
             Event.removeConnection, Event.destroy] } := by
  rfl

/-- C12 (as stated, refuted): stream 5 is registered; creating a subscriber for stream 5
again leaves the connection exactly as it was, and a REQUEST_STREAM frame for stream 5 is
dispatched to the handler while the connection stays `ALIVE` with the old registry entry
and nothing queued for writing. -/
theorem duplicate_stream_counterexample :
    (List.lookup 5 RocketServerConnection.withStream.streams_).isSome = true ∧
    (createStreamSubscriber RocketServerConnection.withStream
      { streamId := 5, kind := some RequestKind.STREAM, initialRequestN := 2,
        fragments := [] } 2).1 = RocketServerConnection.withStream ∧
    handleFrame Externals.sample RocketServerConnection.withStream
        (Frame.requestStream 5 2 "generate:5") =
      some { RocketServerConnection.withStream with
        trace := [Event.handleSetupFrame 0,
          Event.handleRequestStreamFrame 5 2
            [{ metadata := none, data := "generate:5".toList }]] } ∧
    RocketServerConnection.withStream.state_ = ConnectionState.ALIVE := by
  decide

/-- C12 (amended): `createStreamSubscriber` does not detect a stream id that is already
registered.  The connection is returned unchanged (`emplace` keeps the existing entry, the
state is untouched, nothing is queued and nothing is called) and the subscriber handed back
is the new one, which is not in the registry. -/
theorem createStreamSubscriber_duplicate (c : RocketServerConnection)
    (context : RocketServerFrameContext) (initialRequestN : Nat)
    (h : (List.lookup context.streamId c.streams_).isSome = true) :
    createStreamSubscriber c context initialRequestN =
      (c, { context := context, initialRequestN := initialRequestN }) := by
  simp [createStreamSubscriber, emplace, h]

/-- C12 (amended, instance): stream 5 registered twice. -/
theorem createStreamSubscriber_duplicate_witness :
    (List.lookup 5 RocketServerConnection.withStream.streams_).isSome = true ∧
    createStreamSubscriber RocketServerConnection.withStream
        { streamId := 5, kind := some RequestKind.STREAM, initialRequestN := 2,
          fragments := [] } 2 =
      (RocketServerConnection.withStream,
        { context := { streamId := 5, kind := some RequestKind.STREAM, initialRequestN := 2,
                       fragments := [] },
          initialRequestN := 2 }) :=
  ⟨rfl, createStreamSubscriber_duplicate RocketServerConnection.withStream
    { streamId := 5, kind := some RequestKind.STREAM, initialRequestN := 2,
      fragments := [] } 2 rfl⟩

/-- C13: on a connection that has accepted SETUP, a CANCEL frame for a registered stream
calls `cancel` on that stream's subscriber exactly once and erases exactly that id: the id
is absent afterwards and every other id is looked up as before.  Nothing is queued for
writing, the state, the socket and everything else stay as they were. -/
theorem cancel_registered (ext : Externals) (c : RocketServerConnection) (frame : Frame)
    (hs : c.setupFrameReceived_ = true) (ht : frame.frameType = FrameType.CANCEL)
    (hl : (List.lookup frame.streamId c.streams_).isSome = true) :
    ∃ c1, handleFrame ext c frame = some c1 ∧
      c1 = { c with
        streams_ := c.streams_.filter (fun p => p.1 != frame.streamId)
        trace := c.trace ++ [Event.cancel frame.streamId] } ∧
      List.lookup frame.streamId c1.streams_ = none ∧
      (∀ j, j ≠ frame.streamId → List.lookup j c1.streams_ = List.lookup j c.streams_) ∧
      c1.batchWriteLoopCallback_ = c.batchWriteLoopCallback_ ∧
      c1.state_ = c.state_ := by
  obtain ⟨sub, hsub⟩ := Option.isSome_iff_exists.1 hl
  refine ⟨_, ?_, rfl, ?_, ?_, rfl, rfl⟩
  · simp [handleFrame, handleFrameSwitch, hs, ht, hsub, emit, erase]
  · exact lookup_erase_self c.streams_ frame.streamId
  · intro j hj
    exact lookup_erase_ne c.streams_ frame.streamId j hj

/-- C13 (instance): CANCEL for the registered stream 5. -/
theorem cancel_registered_witness :
    RocketServerConnection.withStream.setupFrameReceived_ = true ∧
    (List.lookup 5 RocketServerConnection.withStream.streams_).isSome = true ∧
    ∃ c1, handleFrame Externals.sample RocketServerConnection.withStream
        (Frame.header 5 FrameType.CANCEL) = some c1 ∧
      c1.trace = [Event.handleSetupFrame 0, Event.cancel 5] ∧
      c1.streams_ = [] ∧
      c1.state_ = ConnectionState.ALIVE := by
  refine ⟨rfl, rfl, ?_⟩
  obtain ⟨c1, h1, h2, _⟩ := cancel_registered Externals.sample
    RocketServerConnection.withStream (Frame.header 5 FrameType.CANCEL) rfl rfl rfl
  exact ⟨c1, h1, by rw [h2]; rfl, by rw [h2]; rfl, by rw [h2]; rfl⟩

/-- C14: on a connection that has accepted SETUP, a REQUEST_N or CANCEL frame for a
stream id that is not registered leaves the whole connection unchanged: no close, no
subscriber call, both maps and the write queue as before. -/
theorem lookup_miss_ignored (ext : Externals) (c : RocketServerConnection) (frame : Frame)
    (hs : c.setupFrameReceived_ = true)
    (ht : frame.frameType = FrameType.REQUEST_N ∨ frame.frameType = FrameType.CANCEL)
    (hl : List.lookup frame.streamId c.streams_ = none) :
    handleFrame ext c frame = some c := by
  rcases ht with ht | ht <;> simp [handleFrame, handleFrameSwitch, hs, ht, hl]

/-- C14 (instance): REQUEST_N for the unregistered stream 6. -/
theorem lookup_miss_ignored_witness :
    RocketServerConnection.withStream.setupFrameReceived_ = true ∧
    List.lookup 6 RocketServerConnection.withStream.streams_ = none ∧
    handleFrame Externals.sample RocketServerConnection.withStream
      (Frame.requestNFrame 6 3) = some RocketServerConnection.withStream :=
  ⟨rfl, rfl, lookup_miss_ignored Externals.sample RocketServerConnection.withStream
    (Frame.requestNFrame 6 3) rfl (Or.inl rfl) rfl⟩

/-- C15 (as stated, refuted): after SETUP and REQUEST_STREAM(stream 3, initial demand 2,
data "generate:5") stream 3 is registered.  REQUEST_N(stream 3, n = 3) then makes the
source of the test handler signal the remaining three items and `onComplete`; the
subscriber sends three `PAYLOAD(next)` frames and `PAYLOAD(complete)` and removes its
entry, so the registry no longer has the key 3. -/
theorem requestN_completes_counterexample :
    handleFrames Externals.sample (RocketServerConnection.create true)
        [Frame.header 0 FrameType.SETUP, Frame.requestStream 3 2 "generate:5"] =
      some RocketServerConnection.withGenerate5 ∧
    RocketServerConnection.withGenerate5.setupFrameReceived_ = true ∧
    (List.lookup 3 RocketServerConnection.withGenerate5.streams_).isSome = true ∧
    Externals.sample.pull RocketServerConnection.withGenerate5.trace 3 3 =
      { items := [testItem 2, testItem 3, testItem 4], ending := some StreamEnd.complete } ∧
    handleFrame Externals.sample RocketServerConnection.withGenerate5
        (Frame.requestNFrame 3 3) =
      some { RocketServerConnection.withGenerate5 with
        streams_ := []
        batchWriteLoopCallback_ :=
          { bufQueue :=
              [IOBuf.PayloadFrame 3 (testItem 2) true false,
               IOBuf.PayloadFrame 3 (testItem 3) true false,
               IOBuf.PayloadFrame 3 (testItem 4) true false,
               IOBuf.PayloadFrame 3 { metadata := none, data := [] } false true]
            scheduled := true }
        trace := RocketServerConnection.withGenerate5.trace ++
          [Event.request 3 3, Event.runInLoop] } := by
  decide

/-- C15 (amended): on a connection that has accepted SETUP, a REQUEST_N frame for a
registered stream calls `request(n)` exactly once on that stream's subscriber, with the
`n` of the frame; no other subscriber and no handler is called (the only further calls are
`runInLoop` for frames the subscriber sends), the state and the socket are as before, and
every other stream keeps its registry entry.  The stream's own entry stays unless the
source, pulled by this request, ends the stream: then the subscriber removes it.  On an
`ALIVE` connection the write queue grows by exactly the frames of that subscriber. -/
theorem requestN_registered (ext : Externals) (c : RocketServerConnection) (frame : Frame)
    (hs : c.setupFrameReceived_ = true) (ht : frame.frameType = FrameType.REQUEST_N)
    (hl : (List.lookup frame.streamId c.streams_).isSome = true) :
    ∃ c1 d, handleFrame ext c frame = some c1 ∧
      c1.trace = c.trace ++ Event.request frame.streamId frame.requestN :: d ∧
      (∀ e ∈ d, e = Event.runInLoop) ∧
      c1.state_ = c.state_ ∧ c1.socket_ = c.socket_ ∧
      c1.setupFrameReceived_ = c.setupFrameReceived_ ∧
      c1.partialFrames_ = c.partialFrames_ ∧
      (∀ j, j ≠ frame.streamId → List.lookup j c1.streams_ = List.lookup j c.streams_) ∧
      ((ext.pull c.trace frame.streamId frame.requestN).ending = none →
        c1.streams_ = c.streams_) ∧
      ((ext.pull c.trace frame.streamId frame.requestN).ending ≠ none →
        c1.streams_ = erase c.streams_ frame.streamId ∧
        List.lookup frame.streamId c1.streams_ = none) ∧
      (c.state_ = ConnectionState.ALIVE →
        c1.batchWriteLoopCallback_.bufQueue = c.batchWriteLoopCallback_.bufQueue ++
          (ext.pull c.trace frame.streamId frame.requestN).frames frame.streamId) := by
  obtain ⟨sub, hsub⟩ := Option.isSome_iff_exists.1 hl
  obtain ⟨q, d, hreq, hd⟩ := request_cases ext c frame.streamId frame.requestN
  have hframe : handleFrame ext c frame =
      some (RocketServerStreamSubscriber.request ext c frame.streamId frame.requestN) := by
    simp [handleFrame, handleFrameSwitch, hs, ht, hsub]
  have hqueue : c.state_ = ConnectionState.ALIVE →
      (RocketServerStreamSubscriber.request ext c frame.streamId
        frame.requestN).batchWriteLoopCallback_.bufQueue =
      c.batchWriteLoopCallback_.bufQueue ++
        (ext.pull c.trace frame.streamId frame.requestN).frames frame.streamId := by
    intro halive
    unfold RocketServerStreamSubscriber.request
    rw [deliver_eq]
    exact sendAll_queue _ (emit c (Event.request frame.streamId frame.requestN)) halive
  refine ⟨_, d, hframe, ?_, hd, ?_, ?_, ?_, ?_, ?_, ?_, ?_, hqueue⟩
  · rw [hreq]
  · rw [hreq]
  · rw [hreq]
  · rw [hreq]
  · rw [hreq]
  · intro j hj
    rw [hreq]
    simp only
    split
    · exact lookup_erase_ne c.streams_ frame.streamId j hj
    · rfl
  · intro hnone
    rw [hreq]
    simp [hnone]
  · intro hsome
    rw [hreq]
    have h1 : (ext.pull c.trace frame.streamId frame.requestN).ending.isSome = true :=
      Option.isSome_iff_ne_none.2 hsome
    simp only [h1, if_true]
    exact ⟨trivial, lookup_erase_self c.streams_ frame.streamId⟩

/-- C15 (amended, instance): REQUEST_N(3) for stream 3 of the "generate:5" connection. -/
theorem requestN_registered_witness :
    RocketServerConnection.withGenerate5.setupFrameReceived_ = true ∧
    (List.lookup 3 RocketServerConnection.withGenerate5.streams_).isSome = true ∧
    ∃ c1, handleFrame Externals.sample RocketServerConnection.withGenerate5
        (Frame.requestNFrame 3 3) = some c1 ∧
      c1.state_ = ConnectionState.ALIVE ∧
      ∃ d, c1.trace = RocketServerConnection.withGenerate5.trace ++ Event.request 3 3 :: d := by
  refine ⟨rfl, rfl, ?_⟩
  obtain ⟨c1, d, h, htrace, _, hstate, _⟩ := requestN_registered Externals.sample
    RocketServerConnection.withGenerate5 (Frame.requestNFrame 3 3) rfl rfl rfl
  exact ⟨c1, h, hstate, d, htrace⟩

/-- Dispatching a complete request leaves the partial-frame map alone and only calls the
handler. -/
theorem onFullFrame_dispatch (c : RocketServerConnection)
    (context : RocketServerFrameContext) :
    (onFullFrame c context).partialFrames_ = c.partialFrames_ ∧
    ∃ d, (onFullFrame c context).trace = c.trace ++ d ∧
      ∀ e ∈ d, e.isHandlerCall = true := by
  unfold onFullFrame
  split <;> simp [emit, createStreamSubscriber, Event.isHandlerCall]

/-- C16: on a connection that has accepted SETUP, a PAYLOAD frame for a stream with a
parked context (parked under its own stream id).  After `handleFrame` the entry for that
id is still present if and only if the frame has `follows` set; the entries of all other
ids are as before; and the parked context receives the fragment through `onPayloadFrame`
exactly once, anything called after it being the dispatch of the completed request to the
handler. -/
theorem payload_continuation (ext : Externals) (c : RocketServerConnection) (frame : Frame)
    (context : RocketServerFrameContext)
    (hs : c.setupFrameReceived_ = true) (ht : frame.frameType = FrameType.PAYLOAD)
    (hl : List.lookup frame.streamId c.partialFrames_ = some context)
    (hkey : context.streamId = frame.streamId) :
    ∃ c1, handleFrame ext c frame = some c1 ∧
      ((List.lookup frame.streamId c1.partialFrames_).isSome = true ↔
        frame.hasFollows = true) ∧
      (∀ j, j ≠ frame.streamId →
        List.lookup j c1.partialFrames_ = List.lookup j c.partialFrames_) ∧
      ∃ d, c1.trace = c.trace ++ Event.onPayloadFrame frame.streamId frame.payload :: d ∧
        ∀ e ∈ d, e.isHandlerCall = true := by
  have hstep : handleFrame ext c frame =
      some (if ¬ frame.hasFollows = true then
        { onPayloadFrame c context frame with
          partialFrames_ := erase (onPayloadFrame c context frame).partialFrames_
            frame.streamId }
        else onPayloadFrame c context frame) := by
    simp [handleFrame, handleFrameSwitch, hs, ht, hl]
  refine ⟨_, hstep, ?_⟩
  cases hf : frame.hasFollows
  · obtain ⟨hpf, d, htr, hd⟩ := onFullFrame_dispatch
      (emit c (Event.onPayloadFrame context.streamId frame.payload))
      { context with fragments := context.fragments ++ [frame.payload] }
    have hon : onPayloadFrame c context frame =
        onFullFrame (emit c (Event.onPayloadFrame context.streamId frame.payload))
          { context with fragments := context.fragments ++ [frame.payload] } := by
      simp [onPayloadFrame, hf]
    simp only [hon, Bool.false_eq_true, not_false_eq_true, if_true]
    refine ⟨?_, ?_, d, ?_, hd⟩
    · simp [lookup_erase_self]
    · intro j hj
      rw [lookup_erase_ne _ _ _ hj, hpf]
      rfl
    · rw [htr, ← hkey]
      simp [emit]
  · have hon : onPayloadFrame c context frame =
        { emit c (Event.onPayloadFrame context.streamId frame.payload) with
          partialFrames_ := assign c.partialFrames_ context.streamId
            { context with fragments := context.fragments ++ [frame.payload] } } := by
      simp [onPayloadFrame, hf, emit]
    simp only [hon, not_true_eq_false, if_false]
    refine ⟨?_, ?_, [], ?_, by simp⟩
    · rw [hkey, lookup_assign_self _ _ _ (by rw [hl]; rfl)]
      simp
    · intro j hj
      rw [hkey]
      exact lookup_assign_ne _ _ _ _ hj
    · rw [← hkey]
      simp [emit]

/-- C16 (instance): a last fragment for the context parked on stream 7. -/
theorem payload_continuation_witness :
    RocketServerConnection.withParked.setupFrameReceived_ = true ∧
    List.lookup 7 RocketServerConnection.withParked.partialFrames_ =
      some RocketServerFrameContext.parked7 ∧
    ∃ c1, handleFrame Externals.sample RocketServerConnection.withParked
        (Frame.payloadFrame 7 false "ta") = some c1 ∧
      ((List.lookup 7 c1.partialFrames_).isSome = true ↔ false = true) := by
  refine ⟨rfl, rfl, ?_⟩
  obtain ⟨c1, h1, h2, _⟩ := payload_continuation Externals.sample
    RocketServerConnection.withParked (Frame.payloadFrame 7 false "ta")
    RocketServerFrameContext.parked7 rfl rfl rfl rfl
  exact ⟨c1, h1, h2⟩

/-- C17: `isBusy` holds exactly when `inflight_ > 0` or the write-loop callback is
scheduled; `timeoutExpired` leaves a busy connection unchanged and otherwise does what
`closeWhenIdle` does. -/
theorem timeoutExpired_spec (ext : Externals) (c : RocketServerConnection) :
    (isBusy c = true ↔ (0 < c.inflight_ ∨ c.batchWriteLoopCallback_.scheduled = true)) ∧
    (isBusy c = true → timeoutExpired ext c = some c) ∧
    (isBusy c = false → timeoutExpired ext c = closeWhenIdle ext c) := by
  refine ⟨by simp [isBusy], fun h => ?_, fun h => ?_⟩
  · simp [timeoutExpired, h]
  · simp [timeoutExpired, h]

/-- C17 (instances): a connection with one task in flight is busy and untouched by the
timeout; a fresh one is idle and the timeout closes it as `closeWhenIdle` does. -/
theorem timeoutExpired_spec_witness :
    (isBusy RocketServerConnection.withStream = true ∧
      timeoutExpired Externals.sample RocketServerConnection.withStream =
        some RocketServerConnection.withStream) ∧
    (isBusy (RocketServerConnection.create true) = false ∧
      timeoutExpired Externals.sample (RocketServerConnection.create true) =
        closeWhenIdle Externals.sample (RocketServerConnection.create true)) :=
  ⟨⟨rfl, (timeoutExpired_spec Externals.sample RocketServerConnection.withStream).2.1 rfl⟩,
    ⟨rfl,
      (timeoutExpired_spec Externals.sample (RocketServerConnection.create true)).2.2 rfl⟩⟩

/-- The outcome of `close` on an `ALIVE` connection that holds its socket: the `ERROR`
frame built by `closeException` is appended to the write queue, and the connection ends up
`CLOSING` with the frame queued or `CLOSED` with the queue handed to the socket. -/
theorem close_of_alive (ext : Externals) (ew : exception_wrapper)
    (c : RocketServerConnection) (s : Socket)
    (hstate : c.state_ = ConnectionState.ALIVE) (hsock : c.socket_ = some s) :
    ∃ closed, close ext ew c = some closed ∧
      closed.state_ ≠ ConnectionState.ALIVE ∧
      ((closed.state_ = ConnectionState.CLOSING ∧
          closed.batchWriteLoopCallback_.bufQueue = c.batchWriteLoopCallback_.bufQueue ++
            [IOBuf.ErrorFrame 0 (closeException ext ew).1 (closeException ext ew).2]) ∨
        (closed.state_ = ConnectionState.CLOSED ∧
          closed.batchWriteLoopCallback_.bufQueue = [] ∧
          Event.writeChain (c.batchWriteLoopCallback_.bufQueue ++
            [IOBuf.ErrorFrame 0 (closeException ext ew).1 (closeException ext ew).2])
            ∈ closed.trace)) := by
  have hsend := send_of_alive { c with socket_ := some { s with readCB := false } }
    (IOBuf.ErrorFrame 0 (closeException ext ew).1 (closeException ext ew).2) hstate
  refine ⟨closeIfNeeded
    { send { c with socket_ := some { s with readCB := false } }
        (IOBuf.ErrorFrame 0 (closeException ext ew).1 (closeException ext ew).2) with
      state_ := ConnectionState.CLOSING }, by simp [close, hsock, sendError], ?_⟩
  rw [hsend]
  by_cases hg : c.inflight_ = c.streams_.length
  · have hclosed := closeIfNeeded_eq_of_guard
      { socket_ := some { readCB := false }, state_ := ConnectionState.CLOSING,
        setupFrameReceived_ := c.setupFrameReceived_, inflight_ := c.inflight_,
        streams_ := c.streams_, partialFrames_ := c.partialFrames_,
        batchWriteLoopCallback_ :=
          { bufQueue := c.batchWriteLoopCallback_.bufQueue ++
              [IOBuf.ErrorFrame 0 (closeException ext ew).1 (closeException ext ew).2],
            scheduled := true },
        manager := c.manager,
        trace := c.trace ++
          (if c.batchWriteLoopCallback_.scheduled then [] else [Event.runInLoop]) }
      rfl hg
    simp only [hclosed]
    simp
  · have hopen := closeIfNeeded_skip
      { socket_ := some { readCB := false }, state_ := ConnectionState.CLOSING,
        setupFrameReceived_ := c.setupFrameReceived_, inflight_ := c.inflight_,
        streams_ := c.streams_, partialFrames_ := c.partialFrames_,
        batchWriteLoopCallback_ :=
          { bufQueue := c.batchWriteLoopCallback_.bufQueue ++
              [IOBuf.ErrorFrame 0 (closeException ext ew).1 (closeException ext ew).2],
            scheduled := true },
        manager := c.manager,
        trace := c.trace ++
          (if c.batchWriteLoopCallback_.scheduled then [] else [Event.runInLoop]) }
      (Or.inr hg)
    simp only [hopen]
    simp

/-- The text formatted by `writeErr` contains the decimal byte count and the socket error
text. -/
theorem writeErrText_occurs (bytesWritten : Nat) (exWhat : String) :
    occursIn (toString bytesWritten) (writeErrText bytesWritten exWhat) ∧
    occursIn exWhat (writeErrText bytesWritten exWhat) := by
  constructor
  · exact ⟨"Failed to write to remote endpoint. Wrote ",
      " bytes." ++ " AsyncSocketException: " ++ exWhat, by
        simp [writeErrText, String.append_assoc]⟩
  · exact ⟨"Failed to write to remote endpoint. Wrote " ++ toString bytesWritten ++ " bytes."
      ++ " AsyncSocketException: ", "", by simp [writeErrText]⟩

/-- Occurrence of text is transitive. -/
theorem occursIn_trans (a b c : String) (hab : occursIn a b) (hbc : occursIn b c) :
    occursIn a c := by
  obtain ⟨p1, q1, h1⟩ := hab
  obtain ⟨p2, q2, h2⟩ := hbc
  exact ⟨p2 ++ p1, q1 ++ q2, by rw [h2, h1]; simp [String.append_assoc]⟩

/-- C18: on an `ALIVE` connection (holding its socket), `writeErr(b, e)` closes the
connection with one `ERROR` frame for stream 0 whose code is `CONNECTION_ERROR` and whose
message is the `what()` text of a `std::runtime_error` built from "Failed to write to
remote endpoint. Wrote b bytes. AsyncSocketException: e".  The state afterwards is
`CLOSING` (frame queued) or `CLOSED` (queue handed to the socket), not `ALIVE`.  Provided
the `what()` text of that `std::runtime_error` includes the text it was built from, the
frame's message contains the decimal rendering of `b` and the text of `e`. -/
theorem writeErr_closes (ext : Externals) (c : RocketServerConnection) (s : Socket)
    (bytesWritten : Nat) (exWhat : String)
    (hstate : c.state_ = ConnectionState.ALIVE) (hsock : c.socket_ = some s) :
    ∃ closed message, writeErr ext bytesWritten exWhat c = some closed ∧
      message = ext.what (Exception.runtime_error (writeErrText bytesWritten exWhat)) ∧
      closed.state_ ≠ ConnectionState.ALIVE ∧
      ((closed.state_ = ConnectionState.CLOSING ∧
          closed.batchWriteLoopCallback_.bufQueue = c.batchWriteLoopCallback_.bufQueue ++
            [IOBuf.ErrorFrame 0 ErrorCode.CONNECTION_ERROR message]) ∨
        (closed.state_ = ConnectionState.CLOSED ∧
          closed.batchWriteLoopCallback_.bufQueue = [] ∧
          Event.writeChain (c.batchWriteLoopCallback_.bufQueue ++
            [IOBuf.ErrorFrame 0 ErrorCode.CONNECTION_ERROR message]) ∈ closed.trace)) ∧
      (occursIn (writeErrText bytesWritten exWhat)
          (ext.what (Exception.runtime_error (writeErrText bytesWritten exWhat))) →
        occursIn (toString bytesWritten) message ∧ occursIn exWhat message) := by
  obtain ⟨closed, hclose, hne, hres⟩ := close_of_alive ext
    (some (Exception.runtime_error (writeErrText bytesWritten exWhat))) c s hstate hsock
  obtain ⟨hb, he⟩ := writeErrText_occurs bytesWritten exWhat
  exact ⟨closed, _, hclose, rfl, hne, hres,
    fun hmsg => ⟨occursIn_trans _ _ _ hb hmsg, occursIn_trans _ _ _ he hmsg⟩⟩

/-- The sample `what()` includes the message of the exception. -/
theorem sample_what_occurs (e : Exception) : occursIn e.message (Externals.sample.what e) := by
  cases e with
  | RocketException code msg =>
    exact ⟨"apache::thrift::rocket::RocketException: ", "", by
      simp [Exception.message, Externals.sample]⟩
  | TTransportException type msg =>
    exact ⟨"apache::thrift::transport::TTransportException: ", "", by
      simp [Exception.message, Externals.sample]⟩
  | runtime_error msg =>
    exact ⟨"std::runtime_error: ", "", by simp [Exception.message, Externals.sample]⟩

/-- C18 (instance): a write error after 12 bytes on a fresh connection; with the sample
`what()` the message contains "12" and "Broken pipe". -/
theorem writeErr_closes_witness :
    (RocketServerConnection.create true).state_ = ConnectionState.ALIVE ∧
    (RocketServerConnection.create true).socket_ = some { readCB := true } ∧
    ∃ closed message, writeErr Externals.sample 12 "Broken pipe"
        (RocketServerConnection.create true) = some closed ∧
      message = Externals.sample.what (Exception.runtime_error (writeErrText 12 "Broken pipe")) ∧
      closed.state_ ≠ ConnectionState.ALIVE ∧
      occursIn (toString 12) message ∧ occursIn "Broken pipe" message := by
  refine ⟨rfl, rfl, ?_⟩
  obtain ⟨closed, message, h, hmsg, hne, _, hcontains⟩ := writeErr_closes Externals.sample
    (RocketServerConnection.create true) { readCB := true } 12 "Broken pipe" rfl rfl
  exact ⟨closed, message, h, hmsg, hne,
    hcontains (sample_what_occurs (Exception.runtime_error (writeErrText 12 "Broken pipe")))⟩

/-- A successful `removePrefix` means the piece started with the text. -/
theorem startsWith_of_removePrefix (data pre rest : Bytes)
    (h : removePrefix data pre = some rest) : startsWith data pre = true := by
  unfold removePrefix at h
  split at h
  · assumption
  · simp at h

/-- A failed `removePrefix` means the piece did not start with the text. -/
theorem startsWith_of_removePrefix_none (data pre : Bytes)
    (h : removePrefix data pre = none) : startsWith data pre = false := by
  unfold removePrefix at h
  split at h
  · simp at h
  · simpa using ‹¬ startsWith data pre = true›

/-- The function `makeTestResponse` returns a response unless the conversion of the text
after "sleep_ms:" throws. -/
theorem makeTestResponse_isSome (toUInt32 : Bytes → Option Nat)
    (requestMetadata : Option Bytes) (requestData : Bytes)
    (hconv : ∀ rest, removePrefix requestData "sleep_ms:".toList = some rest →
      (toUInt32 rest).isSome = true) :
    ∃ response, makeTestResponse toUInt32 requestMetadata requestData = some response := by
  unfold makeTestResponse
  cases hsleep : removePrefix requestData "sleep_ms:".toList with
  | some rest =>
    obtain ⟨n, hn⟩ := Option.isSome_iff_exists.1 (hconv rest hsleep)
    simp only [hsleep, hn]
    simp
  | none =>
    simp only [hsleep]
    cases herr : removePrefix requestData "error:".toList with
    | some rest =>
      simp only [herr]
      simp
    | none =>
      simp only [herr]
      split_ifs <;> simp

/-- Neither reply operation changes the connection state. -/
theorem ContextCall.apply_state (call : ContextCall) (c : RocketServerConnection)
    (streamId : StreamId) : (call.apply c streamId).state_ = c.state_ := by
  cases call with
  | sendError code message =>
    obtain ⟨q, d, hs, _⟩ := send_cases c (IOBuf.ErrorFrame streamId code message)
    show (send c (IOBuf.ErrorFrame streamId code message)).state_ = c.state_
    rw [hs]
  | sendPayload payload next complete =>
    obtain ⟨q, d, hs, _⟩ := send_cases c (IOBuf.PayloadFrame streamId payload next complete)
    show (send c (IOBuf.PayloadFrame streamId payload next complete)).state_ = c.state_
    rw [hs]

/-- C19 (as stated, refuted): for request data "sleep_ms:x" the conversion of "x" to a
32-bit unsigned number throws inside `makeTestResponse`, so the handler performs no
terminal send at all. -/
theorem handleRequestResponseFrame_counterexample :
    startsWith (Frame.requestResponse 7 "sleep_ms:x").payload.data
      "error:application".toList = false ∧
    removePrefix (Frame.requestResponse 7 "sleep_ms:x").payload.data "sleep_ms:".toList =
      some "x".toList ∧
    toUInt32Sample "x".toList = none ∧
    handleRequestResponseFrame toUInt32Sample (Frame.requestResponse 7 "sleep_ms:x") =
      none := by
  decide

/-- C19 (amended): for every request/response frame on which the conversion inside
`makeTestResponse` does not throw (the data does not begin with "sleep_ms:", or the text
after that prefix converts), `handleRequestResponseFrame` performs exactly one terminal
send on the context: `sendError` with `APPLICATION_ERROR` and "Application error
occurred" if and only if the data begins with "error:application", otherwise one
`sendPayload` with `next` and `complete` set.  The send leaves the connection state as it
is, so an `ALIVE` connection stays `ALIVE`. -/
theorem handleRequestResponseFrame_one_send (toUInt32 : Bytes → Option Nat) (frame : Frame)
    (hconv : ∀ rest, removePrefix frame.payload.data "sleep_ms:".toList = some rest →
      (toUInt32 rest).isSome = true) :
    ∃ call, handleRequestResponseFrame toUInt32 frame = some [call] ∧
      (call = ContextCall.sendError ErrorCode.APPLICATION_ERROR "Application error occurred" ↔
        startsWith frame.payload.data "error:application".toList = true) ∧
      (startsWith frame.payload.data "error:application".toList = false →
        ∃ payload, call = ContextCall.sendPayload payload true true) ∧
      ∀ (c : RocketServerConnection) (streamId : StreamId),
        (call.apply c streamId).state_ = c.state_ := by
  cases herr : removePrefix frame.payload.data "error:application".toList with
  | some rest =>
    have hsw := startsWith_of_removePrefix _ _ _ herr
    refine ⟨ContextCall.sendError ErrorCode.APPLICATION_ERROR "Application error occurred",
      by simp only [handleRequestResponseFrame, herr], ?_, ?_, ?_⟩
    · exact ⟨fun _ => hsw, fun _ => rfl⟩
    · intro hfalse
      rw [hsw] at hfalse
      cases hfalse
    · exact fun c streamId => ContextCall.apply_state _ c streamId
  | none =>
    have hsw := startsWith_of_removePrefix_none _ _ herr
    obtain ⟨response, hresp⟩ := makeTestResponse_isSome toUInt32 frame.payload.metadata
      frame.payload.data hconv
    refine ⟨ContextCall.sendPayload (makeFromMetadataAndData response.1 response.2) true true,
      by simp only [handleRequestResponseFrame, herr, hresp], ?_, ?_, ?_⟩
    · refine ⟨fun h => ?_, fun h => ?_⟩
      · cases h
      · rw [hsw] at h
        cases h
    · exact fun _ => ⟨_, rfl⟩
    · exact fun c streamId => ContextCall.apply_state _ c streamId

/-- C19 (amended, instance): the request "sleep_ms:12" on stream 7 converts, and is
answered by one payload and no error. -/
theorem handleRequestResponseFrame_one_send_witness :
    (∀ rest, removePrefix (Frame.requestResponse 7 "sleep_ms:12").payload.data
        "sleep_ms:".toList = some rest → (toUInt32Sample rest).isSome = true) ∧
    ∃ call, handleRequestResponseFrame toUInt32Sample
        (Frame.requestResponse 7 "sleep_ms:12") = some [call] ∧
      (startsWith (Frame.requestResponse 7 "sleep_ms:12").payload.data
          "error:application".toList = false →
        ∃ payload, call = ContextCall.sendPayload payload true true) := by
  have hconv : ∀ rest, removePrefix (Frame.requestResponse 7 "sleep_ms:12").payload.data
      "sleep_ms:".toList = some rest → (toUInt32Sample rest).isSome = true := by
    intro rest h
    have hrest : removePrefix (Frame.requestResponse 7 "sleep_ms:12").payload.data
        "sleep_ms:".toList = some "12".toList := by decide
    rw [hrest] at h
    cases h
    decide
  refine ⟨hconv, ?_⟩
  obtain ⟨call, h1, _, h3, _⟩ := handleRequestResponseFrame_one_send toUInt32Sample
    (Frame.requestResponse 7 "sleep_ms:12") hconv
  exact ⟨call, h1, h3⟩

/-- C20: echo round trip.  For every byte string `XYZ` (the empty one included) and every
request metadata `M` (absent metadata included), `makeTestResponse` applied to `M` and the
data "data_echo:" followed by `XYZ` returns metadata `M` and data exactly `XYZ`; and the
request/response handler replies to such a request with one payload carrying metadata `M`
and data `XYZ`, flags `next` and `complete`. -/
theorem data_echo_round_trip (toUInt32 : Bytes → Option Nat) (M : Option Bytes)
    (XYZ : Bytes) :
    makeTestResponse toUInt32 M ("data_echo:".toList ++ XYZ) = some (M, some XYZ) ∧
    ∀ (streamId : StreamId) (frameType : FrameType) (hasFollows : Bool) (requestN : Nat),
      handleRequestResponseFrame toUInt32
          { streamId := streamId, frameType := frameType, hasFollows := hasFollows,
            requestN := requestN,
            payload := { metadata := M, data := "data_echo:".toList ++ XYZ } } =
        some [ContextCall.sendPayload { metadata := M, data := XYZ } true true] := by
  have hresp : makeTestResponse toUInt32 M ("data_echo:".toList ++ XYZ) =
      some (M, some XYZ) := by
    simp [makeTestResponse, removePrefix, startsWith, kMetadataEchoPrefix, kDataEchoPrefix,
      List.isPrefixOf]
  refine ⟨hresp, fun streamId frameType hasFollows requestN => ?_⟩
  have herr : removePrefix ("data_echo:".toList ++ XYZ) "error:application".toList = none := by
    simp [removePrefix, startsWith, List.isPrefixOf]
  simp only [handleRequestResponseFrame, herr, hresp, makeFromMetadataAndData,
    Option.getD_some]

/-- C21: for every request whose data begins with none of "sleep_ms:", "metadata_echo:"
and "data_echo:" (so also for "ping" and for the "error:" forms), `makeTestResponse`
returns the request unchanged: the request metadata (possibly absent) and the full request
data. -/
theorem makeTestResponse_echo (toUInt32 : Bytes → Option Nat) (requestMetadata : Option Bytes)
    (requestData : Bytes)
    (hsleep : startsWith requestData "sleep_ms:".toList = false)
    (hmeta : startsWith requestData "metadata_echo:".toList = false)
    (hdata : startsWith requestData "data_echo:".toList = false) :
    makeTestResponse toUInt32 requestMetadata requestData =
      some (requestMetadata, some requestData) := by
  have h1 : removePrefix requestData "sleep_ms:".toList = none := by
    simp only [removePrefix, hsleep]
    rfl
  have h2 : startsWith requestData kMetadataEchoPrefix = false := hmeta
  have h3 : startsWith requestData kDataEchoPrefix = false := hdata
  unfold makeTestResponse
  simp only [h1, h2, h3]
  cases removePrefix requestData "error:".toList <;> simp

/-- C21 (instances): "ping" with absent metadata, and "error:other" with metadata "m". -/
theorem makeTestResponse_echo_witness :
    (startsWith "ping".toList "sleep_ms:".toList = false ∧
      startsWith "ping".toList "metadata_echo:".toList = false ∧
      startsWith "ping".toList "data_echo:".toList = false ∧
      makeTestResponse toUInt32Sample none "ping".toList = some (none, some "ping".toList)) ∧
    makeTestResponse toUInt32Sample (some "m".toList) "error:other".toList =
      some (some "m".toList, some "error:other".toList) :=
  ⟨⟨by decide, by decide, by decide,
      makeTestResponse_echo toUInt32Sample none "ping".toList (by decide) (by decide)
        (by decide)⟩,
    makeTestResponse_echo toUInt32Sample (some "m".toList) "error:other".toList (by decide)
      (by decide) (by decide)⟩

/-- Buffers handed to the socket by a trace that is extended. -/
theorem flushed_append (t d : List Event) : flushed (t ++ d) = flushed t ++ flushed d := by
  induction t with
  | nil => rfl
  | cons e rest ih =>
    cases e <;> simp [flushed, ih]

/-- Subscriber cancellations hand nothing to the socket. -/
theorem flushed_cancels (l : List (StreamId × RocketServerStreamSubscriber)) :
    flushed (l.map (fun p => Event.cancel p.1)) = [] := by
  induction l with
  | nil => rfl
  | cons p rest ih => simpa [flushed] using ih

/-- The function `closeIfNeeded` neither accepts nor loses a buffer: it leaves the queue
alone or hands it to the socket as a whole. -/
theorem accepted_closeIfNeeded (c : RocketServerConnection) :
    accepted (closeIfNeeded c) = accepted c ∧
    ((closeIfNeeded c).batchWriteLoopCallback_.bufQueue = c.batchWriteLoopCallback_.bufQueue ∨
      (closeIfNeeded c).batchWriteLoopCallback_.bufQueue = []) := by
  by_cases hg : c.state_ = ConnectionState.CLOSING ∧ c.inflight_ = c.streams_.length
  · rw [closeIfNeeded_eq_of_guard c hg.1 hg.2]
    cases hsch : c.batchWriteLoopCallback_.scheduled <;> cases hm : c.manager <;>
      simp [accepted, flushed_append, flushed_cancels, flushed]
  · rw [closeIfNeeded_skip c (by
      by_cases hs : c.state_ = ConnectionState.CLOSING
      · exact Or.inr (fun hi => hg ⟨hs, hi⟩)
      · exact Or.inl hs)]
    exact ⟨rfl, Or.inl rfl⟩

/-- A `close` on a connection that is no longer `ALIVE` accepts no buffer. -/
theorem close_not_alive (ext : Externals) (ew : exception_wrapper)
    (c c1 : RocketServerConnection) (hstate : c.state_ ≠ ConnectionState.ALIVE)
    (h : close ext ew c = some c1) :
    accepted c1 = accepted c ∧
    (c1.batchWriteLoopCallback_.bufQueue = c.batchWriteLoopCallback_.bufQueue ∨
      c1.batchWriteLoopCallback_.bufQueue = []) ∧
    c1.state_ ≠ ConnectionState.ALIVE := by
  obtain ⟨_, _, _, _, _, hst, _⟩ := close_cases ext ew c c1 h
  unfold close at h
  cases hs : c.socket_ with
  | none => simp [hs] at h
  | some s =>
    simp only [hs, Option.some.injEq, sendError] at h
    have hsend := send_of_not_alive { c with socket_ := some { s with readCB := false } }
      (IOBuf.ErrorFrame 0 (closeException ext ew).1 (closeException ext ew).2) hstate
    rw [hsend] at h
    subst h
    obtain ⟨h1, h2⟩ := accepted_closeIfNeeded
      { socket_ := some { readCB := false }, state_ := ConnectionState.CLOSING,
        setupFrameReceived_ := c.setupFrameReceived_, inflight_ := c.inflight_,
        streams_ := c.streams_, partialFrames_ := c.partialFrames_,
        batchWriteLoopCallback_ := c.batchWriteLoopCallback_, manager := c.manager,
        trace := c.trace }
    refine ⟨h1, h2, ?_⟩
    rcases hst with ⟨hst, _⟩ | ⟨hst, _⟩ <;> rw [hst] <;> decide

/-- A `close` on an `ALIVE` connection accepts exactly the `ERROR` frame it builds. -/
theorem close_alive_accepted (ext : Externals) (ew : exception_wrapper)
    (c c1 : RocketServerConnection) (hstate : c.state_ = ConnectionState.ALIVE)
    (h : close ext ew c = some c1) :
    accepted c1 = accepted c ++
      [IOBuf.ErrorFrame 0 (closeException ext ew).1 (closeException ext ew).2] ∧
    c1.state_ ≠ ConnectionState.ALIVE := by
  obtain ⟨_, _, _, _, _, hst, _⟩ := close_cases ext ew c c1 h
  unfold close at h
  cases hs : c.socket_ with
  | none => simp [hs] at h
  | some s =>
    simp only [hs, Option.some.injEq, sendError] at h
    have hsend := send_of_alive { c with socket_ := some { s with readCB := false } }
      (IOBuf.ErrorFrame 0 (closeException ext ew).1 (closeException ext ew).2) hstate
    rw [hsend] at h
    subst h
    obtain ⟨h1, _⟩ := accepted_closeIfNeeded
      { socket_ := some { readCB := false }, state_ := ConnectionState.CLOSING,
        setupFrameReceived_ := c.setupFrameReceived_, inflight_ := c.inflight_,
        streams_ := c.streams_, partialFrames_ := c.partialFrames_,
        batchWriteLoopCallback_ :=
          { bufQueue := c.batchWriteLoopCallback_.bufQueue ++
              [IOBuf.ErrorFrame 0 (closeException ext ew).1 (closeException ext ew).2],
            scheduled := true },
        manager := c.manager,
        trace := c.trace ++
          (if c.batchWriteLoopCallback_.scheduled then [] else [Event.runInLoop]) }
    refine ⟨?_, ?_⟩
    · rw [h1]
      cases hsch : c.batchWriteLoopCallback_.scheduled <;>
        simp [accepted, flushed_append, flushed]
    · rcases hst with ⟨hst, _⟩ | ⟨hst, _⟩ <;> rw [hst] <;> decide

/-- Each closing operation is `close` with some argument. -/
theorem isClose_apply (ext : Externals) (op : Operation) (hop : op.isClose = true) :
    ∃ ew, ∀ c, op.apply ext c = close ext ew c := by
  cases op with
  | close ew => exact ⟨ew, fun _ => rfl⟩
  | dropConnection => exact ⟨_, fun _ => rfl⟩
  | closeWhenIdle => exact ⟨_, fun _ => rfl⟩
  | writeErr bytesWritten exWhat => exact ⟨_, fun _ => rfl⟩
  | handleFrame frame => simp [Operation.isClose] at hop
  | send data => simp [Operation.isClose] at hop
  | closeIfNeeded => simp [Operation.isClose] at hop
  | timeoutExpired => simp [Operation.isClose] at hop

/-- Closing operations on a connection that is no longer `ALIVE` accept no buffer. -/
theorem applyAll_not_alive (ext : Externals) (ops : List Operation)
    (c c1 : RocketServerConnection) (hops : ∀ op ∈ ops, op.isClose = true)
    (hstate : c.state_ ≠ ConnectionState.ALIVE)
    (h : Operation.applyAll ext c ops = some c1) : accepted c1 = accepted c := by
  induction ops generalizing c with
  | nil =>
    simp only [Operation.applyAll, Option.some.injEq] at h
    rw [h]
  | cons op rest ih =>
    simp only [Operation.applyAll] at h
    cases hstep : op.apply ext c with
    | none => simp [hstep] at h
    | some c2 =>
      simp only [hstep, Option.some_bind] at h
      obtain ⟨ew, hew⟩ := isClose_apply ext op (hops op (List.mem_cons_self _ _))
      rw [hew] at hstep
      obtain ⟨h1, _, h3⟩ := close_not_alive ext ew c c2 hstate hstep
      rw [ih c2 (fun o ho => hops o (List.mem_cons_of_mem _ ho)) h3 h, h1]

/-- C26: at most one connection-level `ERROR` frame is ever accepted for writing.  On a
connection that is already `CLOSING` or `CLOSED`, a further close (`close`,
`dropConnection`, `closeWhenIdle` or `writeErr`) accepts no buffer: the queue is left as it
is or handed to the socket as it is.  Hence over any sequence of such calls starting from
an `ALIVE` connection, the buffers accepted grow by exactly one `ERROR` frame on stream 0,
the one built by the first call. -/
theorem single_error_frame (ext : Externals) (c c1 : RocketServerConnection) :
    (∀ op : Operation, op.isClose = true →
      c.state_ = ConnectionState.CLOSING ∨ c.state_ = ConnectionState.CLOSED →
      op.apply ext c = some c1 →
        accepted c1 = accepted c ∧
        (c1.batchWriteLoopCallback_.bufQueue = c.batchWriteLoopCallback_.bufQueue ∨
          c1.batchWriteLoopCallback_.bufQueue = []) ∧
        c1.state_ ≠ ConnectionState.ALIVE) ∧
    (∀ (op : Operation) (rest : List Operation),
      (∀ o ∈ op :: rest, o.isClose = true) →
      c.state_ = ConnectionState.ALIVE →
      Operation.applyAll ext c (op :: rest) = some c1 →
        ∃ ew, op.apply ext c = close ext ew c ∧
          accepted c1 = accepted c ++
            [IOBuf.ErrorFrame 0 (closeException ext ew).1 (closeException ext ew).2]) := by
  constructor
  · intro op hop hstate h
    obtain ⟨ew, hew⟩ := isClose_apply ext op hop
    rw [hew] at h
    refine close_not_alive ext ew c c1 ?_ h
    rcases hstate with hs | hs <;> rw [hs] <;> decide
  · intro op rest hops hstate h
    obtain ⟨ew, hew⟩ := isClose_apply ext op (hops op (List.mem_cons_self _ _))
    refine ⟨ew, hew c, ?_⟩
    simp only [Operation.applyAll] at h
    cases hstep : op.apply ext c with
    | none => simp [hstep] at h
    | some c2 =>
      simp only [hstep, Option.some_bind] at h
      rw [hew] at hstep
      obtain ⟨h1, h2⟩ := close_alive_accepted ext ew c c2 hstate hstep
      rw [applyAll_not_alive ext rest c2 c1 (fun o ho => hops o (List.mem_cons_of_mem _ ho))
        h2 h, h1]

/-- C26 (instance): `dropConnection`, `closeWhenIdle` and `writeErr` in a row on an `ALIVE`
connection with a task in flight: one `ERROR` frame, from `dropConnection`. -/
theorem single_error_frame_witness :
    RocketServerConnection.withTask.state_ = ConnectionState.ALIVE ∧
    ∃ c1, Operation.applyAll Externals.sample RocketServerConnection.withTask
        [Operation.dropConnection, Operation.closeWhenIdle, Operation.writeErr 3 "x"] =
          some c1 ∧
      accepted c1 = accepted RocketServerConnection.withTask ++
        [IOBuf.ErrorFrame 0 ErrorCode.CONNECTION_ERROR
          "apache::thrift::transport::TTransportException: Dropping connection"] := by
  refine ⟨rfl, ?_⟩
  have hrun : ∃ c1, Operation.applyAll Externals.sample RocketServerConnection.withTask
      [Operation.dropConnection, Operation.closeWhenIdle, Operation.writeErr 3 "x"] =
        some c1 := ⟨_, rfl⟩
  obtain ⟨c1, hc1⟩ := hrun
  obtain ⟨ew, hew, hacc⟩ := (single_error_frame Externals.sample
    RocketServerConnection.withTask c1).2 Operation.dropConnection
    [Operation.closeWhenIdle, Operation.writeErr 3 "x"] (by decide) rfl hc1
  refine ⟨c1, hc1, ?_⟩
  have hc : c1 = _ := Option.some.inj (hc1.symm.trans rfl)
  rw [hc]
  decide

/-- C27: graceful close completes in one step.  On an `ALIVE` connection (holding its
socket, registered with a manager) that is not busy and has an empty registry,
`closeWhenIdle` ends in `CLOSED`: `runInLoop` is called for the `ERROR` frame, the
write-loop callback is cancelled, the queue ending with the `ERROR` frame (stream 0, code
`CONNECTION_ERROR`, message the `what()` text of the timeout exception built with
"Closing idle connection") is handed to the socket, `removeConnection` is called once, and
only then the socket is dropped; the write queue is empty on return.  The message contains
"Closing idle connection" provided the `what()` text of that timeout exception does. -/
theorem closeWhenIdle_completes (ext : Externals) (c : RocketServerConnection) (s : Socket)
    (hstate : c.state_ = ConnectionState.ALIVE) (hsock : c.socket_ = some s)
    (hbusy : isBusy c = false) (hstreams : c.streams_ = []) (hmanager : c.manager = true) :
    ∃ c1 message, closeWhenIdle ext c = some c1 ∧
      message = ext.what (Exception.TTransportException TTransportExceptionType.TIMED_OUT
        "Closing idle connection") ∧
      c1.state_ = ConnectionState.CLOSED ∧
      c1.socket_ = none ∧
      c1.manager = false ∧
      c1.batchWriteLoopCallback_ = { bufQueue := [], scheduled := false } ∧
      c1.trace = c.trace ++
        [Event.runInLoop, Event.cancelLoopCallback,
         Event.writeChain (c.batchWriteLoopCallback_.bufQueue ++
           [IOBuf.ErrorFrame 0 ErrorCode.CONNECTION_ERROR message]),
         Event.removeConnection, Event.destroy] ∧
      (occursIn "Closing idle connection"
          (ext.what (Exception.TTransportException TTransportExceptionType.TIMED_OUT
            "Closing idle connection")) →
        occursIn "Closing idle connection" message) := by
  have hb : c.inflight_ = 0 ∧ c.batchWriteLoopCallback_.scheduled = false := by
    simpa [isBusy] using hbusy
  have hsend := send_of_alive { c with socket_ := some { s with readCB := false } }
    (IOBuf.ErrorFrame 0 ErrorCode.CONNECTION_ERROR
      (ext.what (Exception.TTransportException TTransportExceptionType.TIMED_OUT
        "Closing idle connection"))) hstate
  have hguard := closeIfNeeded_eq_of_guard
    { socket_ := some { readCB := false }, state_ := ConnectionState.CLOSING,
      setupFrameReceived_ := c.setupFrameReceived_, inflight_ := c.inflight_,
      streams_ := c.streams_, partialFrames_ := c.partialFrames_,
      batchWriteLoopCallback_ :=
        { bufQueue := c.batchWriteLoopCallback_.bufQueue ++
            [IOBuf.ErrorFrame 0 ErrorCode.CONNECTION_ERROR
              (ext.what (Exception.TTransportException TTransportExceptionType.TIMED_OUT
                "Closing idle connection"))],
          scheduled := true },
      manager := c.manager,
      trace := c.trace ++
        (if c.batchWriteLoopCallback_.scheduled then [] else [Event.runInLoop]) }
    rfl (by simp [hb.1, hstreams])
  refine ⟨closeIfNeeded
      { send { c with socket_ := some { s with readCB := false } }
          (IOBuf.ErrorFrame 0 ErrorCode.CONNECTION_ERROR
            (ext.what (Exception.TTransportException TTransportExceptionType.TIMED_OUT
              "Closing idle connection"))) with
        state_ := ConnectionState.CLOSING },
    ext.what (Exception.TTransportException TTransportExceptionType.TIMED_OUT
      "Closing idle connection"), ?_, rfl, ?_⟩
  · simp only [closeWhenIdle, close, hsock, sendError, closeException]
  · rw [hsend, hguard]
    simp [hb.2, hstreams, hmanager]

/-- C27 (instance): a fresh, managed connection closed when idle; with the sample `what()`
the message contains "Closing idle connection". -/
theorem closeWhenIdle_completes_witness :
    (RocketServerConnection.create true).state_ = ConnectionState.ALIVE ∧
    isBusy (RocketServerConnection.create true) = false ∧
    ∃ c1 message, closeWhenIdle Externals.sample (RocketServerConnection.create true) =
        some c1 ∧
      c1.state_ = ConnectionState.CLOSED ∧
      c1.batchWriteLoopCallback_ = { bufQueue := [], scheduled := false } ∧
      c1.trace =
        [Event.runInLoop, Event.cancelLoopCallback,
         Event.writeChain [IOBuf.ErrorFrame 0 ErrorCode.CONNECTION_ERROR message],
         Event.removeConnection, Event.destroy] ∧
      occursIn "Closing idle connection" message := by
  refine ⟨rfl, rfl, ?_⟩
  obtain ⟨c1, message, h, _, hst, _, _, hq, htrace, hcontains⟩ :=
    closeWhenIdle_completes Externals.sample
      (RocketServerConnection.create true) { readCB := true } rfl rfl rfl rfl rfl
  exact ⟨c1, message, h, hst, hq, htrace,
    hcontains (sample_what_occurs (Exception.TTransportException
      TTransportExceptionType.TIMED_OUT "Closing idle connection"))⟩

/-- A `getline` that leaves the stream good has consumed at least the newline. -/
theorem getlineLoop_good (room : Nat) (rest stored : Bytes)
    (h : (getlineLoop room rest stored).2.good = true) :
    (getlineLoop room rest stored).2.rest.length < rest.length := by
  induction rest generalizing room stored with
  | nil => simp [getlineLoop] at h
  | cons ch rest ih =>
    unfold getlineLoop at h ⊢
    split
    · simp
    · cases room with
      | zero => simp_all
      | succ room =>
        simp only [List.length_cons]
        have hrec : (getlineLoop room rest (stored ++ [ch])).2.good = true := by
          simpa [*] using h
        exact Nat.lt_succ_of_lt (ih room (stored ++ [ch]) hrec)

/-- On a stream that is not good the loop is not entered. -/
theorem findLoop_not_good (fuel : Nat) (f : IfStream) (h : f.good = false) :
    findLoop fuel f = false := by
  cases fuel <;> simp [findLoop, h]

/-- The loop of the probe ends before its fuel does: any two amounts of fuel above the
number of unread characters give the same `found`. -/
theorem findLoop_fuel (fuel1 fuel2 : Nat) (f : IfStream)
    (h1 : f.rest.length < fuel1) (h2 : f.rest.length < fuel2) :
    findLoop fuel1 f = findLoop fuel2 f := by
  induction fuel1 generalizing fuel2 f with
  | zero => omega
  | succ fuel1 ih =>
    cases fuel2 with
    | zero => omega
    | succ fuel2 =>
      unfold findLoop
      split
      · split
        · rfl
        · cases hg : (getline f).2.good
          · rw [findLoop_not_good _ _ hg, findLoop_not_good _ _ hg]
          · have hlt := getlineLoop_good 63 f.rest [] hg
            exact ih fuel2 (getline f).2 (by unfold getline; omega) (by unfold getline; omega)
      · rfl

/-- What the loop of the probe computes: `found` is set as soon as a line read does not
begin with "tls". -/
theorem tlsFound_of_first_line (content : Bytes)
    (h : memcmpTls (getline { rest := content, good := true }).1 = true) :
    tlsFound (some content) = true := by
  simp [tlsFound, findLoop, h]

/-- C25 (the code at failing inputs): the test `std::memcmp(buf, "tls", 3)` is true when
the line differs from "tls", so `found` is set by the first line that does not begin with
"tls".  For a module list without any "tls" line (`ext4 ...`) `found` is true and the
error is not logged; for a list consisting of the unterminated line `tls 16384 0`,
`found` stays false and the error is logged although the module is listed. -/
theorem tls_check_inverted :
    (someLineBeginsWithTls "ext4 737280 1\n".toList = false ∧
      tlsFound (some "ext4 737280 1\n".toList) = true ∧
      verify_ktls_compatibility { major := 5, minor := 4, patch := 0 }
        (some "ext4 737280 1\n".toList) = []) ∧
    (someLineBeginsWithTls "tls 16384 0".toList = true ∧
      tlsFound (some "tls 16384 0".toList) = false ∧
      verify_ktls_compatibility { major := 5, minor := 4, patch := 0 }
        (some "tls 16384 0".toList) = [LogLine.tlsModuleNotLoaded]) := by
  decide

/-- Consecutive runs of items join up. -/
theorem itemsFrom_append (first a b : Nat) :
    itemsFrom first a ++ itemsFrom (first + a) b = itemsFrom first (a + b) := by
  induction a generalizing first with
  | zero => simp [itemsFrom]
  | succ a ih =>
    have h := ih (first + 1)
    simp only [itemsFrom, List.range'_succ, List.map_cons, List.cons_append] at h ⊢
    rw [show first + (a + 1) = first + 1 + a by omega, h,
      show a + 1 + b = (a + b) + 1 by omega, List.range'_succ, List.map_cons]

/-- A run of items counts as many `onNext` as it has items and no `onComplete`. -/
theorem itemsFrom_counts (first count : Nat) :
    (itemsFrom first count).filter SubscriberEvent.isOnNext = itemsFrom first count ∧
    countNext (itemsFrom first count) = count ∧
    countComplete (itemsFrom first count) = 0 := by
  induction count generalizing first with
  | zero => simp [itemsFrom, countNext, countComplete]
  | succ count ih =>
    obtain ⟨h1, h2, h3⟩ := ih (first + 1)
    simp only [itemsFrom, countNext, countComplete, List.range'_succ, List.map_cons] at *
    refine ⟨?_, ?_, ?_⟩
    · simp [List.filter_cons, SubscriberEvent.isOnNext, h1]
    · simp [List.filter_cons, SubscriberEvent.isOnNext, h2]
    · simp [List.count_cons, h3]

/-- The loop of the generator signals the items `i, i + 1, ...` up to the demand or up to
`n`, whichever comes first. -/
theorem loop_eq (n requested i : Nat) (hi : i ≤ n) :
    Generator.loop n requested i =
      (itemsFrom i (min requested (n - i)), i + min requested (n - i)) := by
  induction requested generalizing i with
  | zero => simp [Generator.loop, itemsFrom]
  | succ requested ih =>
    unfold Generator.loop
    by_cases hlt : i < n
    · have hmin : min (requested + 1) (n - i) = min requested (n - (i + 1)) + 1 := by omega
      simp only [hlt, if_true, ih (i + 1) hlt, hmin]
      refine Prod.ext ?_ ?_
      · simp [itemsFrom, List.range'_succ]
      · simp only
        omega
    · have hn : n - i = 0 := by omega
      simp [hlt, hn, itemsFrom]

/-- One invocation of the generator: the items up to the demand or up to `n`, then
`onComplete` exactly when the counter has reached `n`. -/
theorem invoke_eq (g : Generator) (requested : Int) (hi : g.i ≤ g.n) :
    g.invoke requested =
      (itemsFrom g.i (min requested.toNat (g.n - g.i)) ++
        (if g.i + min requested.toNat (g.n - g.i) = g.n then [SubscriberEvent.onComplete]
         else []),
       { g with i := g.i + min requested.toNat (g.n - g.i) }) := by
  simp only [Generator.invoke, loop_eq g.n requested.toNat g.i hi]

/-- For demands that are not negative, the sum of the demands as naturals is their sum. -/
theorem sum_toNat (rs : List Int) (h : ∀ r ∈ rs, 0 ≤ r) :
    (((rs.map Int.toNat).sum : Nat) : Int) = rs.sum := by
  induction rs with
  | nil => simp
  | cons r rest ih =>
    have hr : 0 ≤ r := h r (List.mem_cons_self _ _)
    have hrest := ih (fun x hx => h x (List.mem_cons_of_mem _ hx))
    simp only [List.map_cons, List.sum_cons, Nat.cast_add, hrest, Int.toNat_of_nonneg hr]

/-- No run of items contains `onComplete`. -/
theorem onComplete_not_mem_itemsFrom (first count : Nat) :
    SubscriberEvent.onComplete ∉ itemsFrom first count := by
  simp [itemsFrom]

/-- Invocations one after the other. -/
theorem invokeAll_append (g : Generator) (pre post : List Int) :
    g.invokeAll (pre ++ post) = g.invokeAll pre ++ (g.after pre).invokeAll post := by
  induction pre generalizing g with
  | nil => rfl
  | cons r rest ih => simp [Generator.invokeAll, Generator.after, ih]

/-- The counter never passes `n`: after any invocations it is the smaller of `n` and the
old counter plus the demands. -/
theorem after_eq (g : Generator) (rs : List Int) (hi : g.i ≤ g.n) :
    (g.after rs).n = g.n ∧
    (g.after rs).i = min g.n (g.i + (rs.map Int.toNat).sum) := by
  induction rs generalizing g with
  | nil => simp [Generator.after, hi]
  | cons r rest ih =>
    have hinv := invoke_eq g r hi
    have hstep : (g.invoke r).2 = { g with i := g.i + min r.toNat (g.n - g.i) } := by
      rw [hinv]
    obtain ⟨h1, h2⟩ := ih (g.invoke r).2 (by rw [hstep]; simp only; omega)
    simp only [Generator.after, List.map_cons, List.sum_cons]
    rw [h1, h2, hstep]
    simp only
    exact ⟨trivial, by omega⟩

/-- The shape of everything the generator signals over any invocations: a run of items
from the old counter to the new one, then only `onComplete`s, which appear only once the
counter has reached `n`. -/
theorem run_shape (g : Generator) (rs : List Int) (hi : g.i ≤ g.n) :
    ∃ k, (g.invokeAll rs).flatten =
        itemsFrom g.i ((g.after rs).i - g.i) ++ List.replicate k SubscriberEvent.onComplete ∧
      (0 < k → (g.after rs).i = g.n) := by
  induction rs generalizing g with
  | nil => exact ⟨0, by simp [Generator.invokeAll, Generator.after, itemsFrom], by simp⟩
  | cons r rest ih =>
    have hinv := invoke_eq g r hi
    have hout : (g.invoke r).1 = itemsFrom g.i (min r.toNat (g.n - g.i)) ++
        (if g.i + min r.toNat (g.n - g.i) = g.n then [SubscriberEvent.onComplete]
         else []) := by rw [hinv]
    have hstep : (g.invoke r).2 = { g with i := g.i + min r.toNat (g.n - g.i) } := by
      rw [hinv]
    have hi1 : (g.invoke r).2.i ≤ (g.invoke r).2.n := by rw [hstep]; simp only; omega
    obtain ⟨k, hk, hkn⟩ := ih (g.invoke r).2 hi1
    obtain ⟨hn, hafter⟩ := after_eq (g.invoke r).2 rest hi1
    have hn1 : (g.invoke r).2.n = g.n := by rw [hstep]
    have hi2 : (g.invoke r).2.i = g.i + min r.toNat (g.n - g.i) := by rw [hstep]
    simp only [Generator.invokeAll, Generator.after, List.flatten_cons, hk, hout]
    rw [hn1, hi2] at hafter
    rw [hi2]
    by_cases hdone : g.i + min r.toNat (g.n - g.i) = g.n
    · have hj : ((g.invoke r).2.after rest).i = g.n := by rw [hafter]; omega
      refine ⟨k + 1, ?_, fun _ => hj⟩
      have h0 : g.n - (g.i + min r.toNat (g.n - g.i)) = 0 := by omega
      have hm : g.n - g.i = min r.toNat (g.n - g.i) := by omega
      rw [hj, if_pos hdone, h0, hm]
      simp [itemsFrom, List.replicate_succ]
    · refine ⟨k, ?_, fun hpos => by rw [hkn hpos, hn1]⟩
      have hsplit : ((g.invoke r).2.after rest).i - g.i =
          min r.toNat (g.n - g.i) +
            (((g.invoke r).2.after rest).i - (g.i + min r.toNat (g.n - g.i))) := by
        rw [hafter]; omega
      simp only [hdone, if_false, List.append_nil]
      rw [hsplit, ← itemsFrom_append, List.append_assoc]

/-- The flowable built by `makeTestFlowable` has not completed and its emitter starts
with the counter at zero. -/
theorem makeTestFlowable_start (toSize : Bytes → Option Nat) (data : Bytes) (f : Flowable)
    (h : makeTestFlowable toSize data = some f) :
    f.emitter.i = 0 ∧ f.completed = false := by
  unfold makeTestFlowable at h
  simp only [Option.map_eq_some'] at h
  obtain ⟨n, _, hf⟩ := h
  rw [← hf]
  exact ⟨rfl, rfl⟩

/-- For data "generate:" followed by text that converts to `N`, `makeTestFlowable` builds
the flowable around the emitter with `n = N`. -/
theorem makeTestFlowable_generate (toSize : Bytes → Option Nat) (text : Bytes) (N : Nat)
    (hconv : toSize text = some N) :
    makeTestFlowable toSize ("generate:".toList ++ text) =
      some (Flowable.create { n := N, i := 0 }) := by
  have hrest : removePrefix ("generate:".toList ++ text) "generate:".toList = some text := by
    simp [removePrefix, startsWith, List.isPrefixOf]
  simp only [makeTestFlowable, hrest, hconv, Option.map_some']

/-- Each invocation signals at most as many items as were requested. -/
theorem invokeAll_bound (g : Generator) (rs : List Int) (hi : g.i ≤ g.n) :
    ∀ p ∈ List.zip (g.invokeAll rs) rs, countNext p.1 ≤ p.2.toNat := by
  induction rs generalizing g with
  | nil => simp [Generator.invokeAll]
  | cons r rest ih =>
    have hinv := invoke_eq g r hi
    have hstep : (g.invoke r).2 = { g with i := g.i + min r.toNat (g.n - g.i) } := by
      rw [hinv]
    have hi1 : (g.invoke r).2.i ≤ (g.invoke r).2.n := by rw [hstep]; simp only; omega
    intro p hp
    simp only [Generator.invokeAll, List.zip_cons_cons, List.mem_cons] at hp
    rcases hp with rfl | hp
    · simp only [hinv]
      have hc := (itemsFrom_counts g.i (min r.toNat (g.n - g.i))).2.1
      simp only [countNext, List.filter_append] at hc ⊢
      split <;> simp [SubscriberEvent.isOnNext, hc]
    · exact ih (g.invoke r).2 hi1 p hp

/-- With positive demands adding up to what is still missing, some invocation completes
the stream: no earlier invocation signals `onComplete`, and that invocation signals the
remaining items up to `n - 1` followed by `onComplete`. -/
theorem completing_invocation (g : Generator) (rs : List Int) (hi : g.i ≤ g.n)
    (hpos : ∀ r ∈ rs, 0 < r) (hne : rs ≠ [])
    (hsum : g.n - g.i ≤ (rs.map Int.toNat).sum) :
    ∃ pre r post, rs = pre ++ r :: post ∧
      (∀ out ∈ g.invokeAll pre, SubscriberEvent.onComplete ∉ out) ∧
      (g.i < g.n → (g.after pre).i < g.n) ∧
      ((g.after pre).invoke r).1 =
        itemsFrom (g.after pre).i (g.n - (g.after pre).i) ++ [SubscriberEvent.onComplete] := by
  induction rs generalizing g with
  | nil => exact absurd rfl hne
  | cons r rest ih =>
    have hinv := invoke_eq g r hi
    have hstep : (g.invoke r).2 = { g with i := g.i + min r.toNat (g.n - g.i) } := by
      rw [hinv]
    have hr : 0 < r := hpos r (List.mem_cons_self _ _)
    simp only [List.map_cons, List.sum_cons] at hsum
    by_cases hdone : g.i + min r.toNat (g.n - g.i) = g.n
    · refine ⟨[], r, rest, rfl, by simp [Generator.invokeAll], fun h => h, ?_⟩
      have hm : min r.toNat (g.n - g.i) = g.n - g.i := by omega
      simp only [Generator.after, hinv, hm]
      rw [if_pos (by omega)]
    · have hi1 : (g.invoke r).2.i ≤ (g.invoke r).2.n := by rw [hstep]; simp only; omega
      have hn1 : (g.invoke r).2.n = g.n := by rw [hstep]
      have hi2 : (g.invoke r).2.i = g.i + r.toNat := by rw [hstep]; simp only; omega
      have hrest : rest ≠ [] := by
        intro hnil
        rw [hnil] at hsum
        simp at hsum
        omega
      obtain ⟨pre, r1, post, hsplit, hnone, hlt, hlast⟩ := ih (g.invoke r).2 hi1
        (fun x hx => hpos x (List.mem_cons_of_mem _ hx)) hrest (by rw [hn1, hi2]; omega)
      refine ⟨r :: pre, r1, post, by rw [hsplit]; rfl, ?_, ?_, ?_⟩
      · intro out hout
        simp only [Generator.invokeAll, List.mem_cons] at hout
        rcases hout with rfl | hout
        · rw [hinv]
          simp only [hdone, if_false, List.append_nil]
          exact onComplete_not_mem_itemsFrom _ _
        · exact hnone out hout
      · intro _
        simp only [Generator.after]
        rw [← hn1]
        exact hlt (by rw [hn1, hi2]; omega)
      · simp only [Generator.after]
        rw [hlast, hn1]

/-- Counting in a run of items followed by `onComplete`s. -/
theorem shape_counts (first count k : Nat) :
    (itemsFrom first count ++ List.replicate k SubscriberEvent.onComplete).filter
        SubscriberEvent.isOnNext = itemsFrom first count ∧
    countNext (itemsFrom first count ++ List.replicate k SubscriberEvent.onComplete) = count ∧
    countComplete (itemsFrom first count ++ List.replicate k SubscriberEvent.onComplete) = k := by
  obtain ⟨h1, h2, h3⟩ := itemsFrom_counts first count
  have hf : (List.replicate k SubscriberEvent.onComplete).filter SubscriberEvent.isOnNext
      = [] := by
    rw [List.filter_eq_nil_iff]
    intro e he
    rw [List.eq_of_mem_replicate he]
    simp [SubscriberEvent.isOnNext]
  refine ⟨?_, ?_, ?_⟩
  · rw [List.filter_append, h1, hf, List.append_nil]
  · simp only [countNext] at h2 ⊢
    rw [List.filter_append, hf, List.append_nil, h2]
  · simp only [countComplete] at h3 ⊢
    rw [List.count_append, h3, List.count_replicate_self, Nat.zero_add]

/-- One demand on a flowable that has not completed: the emitter is invoked, and the
flowable has completed afterwards exactly when the counter has reached `n`. -/
theorem flowable_request_eq (f : Flowable) (r : Int) (hc : f.completed = false)
    (hi : f.emitter.i ≤ f.emitter.n) :
    f.request r =
      (itemsFrom f.emitter.i (min r.toNat (f.emitter.n - f.emitter.i)) ++
        (if f.emitter.i + min r.toNat (f.emitter.n - f.emitter.i) = f.emitter.n then
          [SubscriberEvent.onComplete] else []),
       { emitter := { f.emitter with i := f.emitter.i + min r.toNat (f.emitter.n - f.emitter.i) }
         completed := decide (f.emitter.i + min r.toNat (f.emitter.n - f.emitter.i) =
           f.emitter.n) }) := by
  have hinv := invoke_eq f.emitter r hi
  have hnot := onComplete_not_mem_itemsFrom f.emitter.i
    (min r.toNat (f.emitter.n - f.emitter.i))
  unfold Flowable.request
  simp only [hc, Bool.false_eq_true, if_false, hinv]
  by_cases hdone : f.emitter.i + min r.toNat (f.emitter.n - f.emitter.i) = f.emitter.n
  · simp [hdone]
  · simp [hdone, hnot]

/-- A flowable that has completed signals nothing on further demands. -/
theorem requestAll_completed (f : Flowable) (rs : List Int) (hc : f.completed = true) :
    (f.requestAll rs).flatten = [] ∧ ∀ out ∈ f.requestAll rs, out = [] := by
  have hreq : ∀ r : Int, f.request r = ([], f) := by
    intro r
    simp [Flowable.request, hc]
  induction rs with
  | nil => simp [Flowable.requestAll]
  | cons r rest ih =>
    simp only [Flowable.requestAll, hreq, List.flatten_cons, List.nil_append,
      List.mem_cons]
    exact ⟨ih.1, fun out hout => hout.elim id (ih.2 out)⟩

/-- The shape of everything a flowable signals over any demands: a run of items from the
counter on, within the demands and within `n`, followed by at most one `onComplete`. -/
theorem flowable_shape (f : Flowable) (rs : List Int) (hc : f.completed = false)
    (hi : f.emitter.i ≤ f.emitter.n) :
    ∃ m k, k ≤ 1 ∧ f.emitter.i + m ≤ f.emitter.n ∧ m ≤ (rs.map Int.toNat).sum ∧
      (f.requestAll rs).flatten =
        itemsFrom f.emitter.i m ++ List.replicate k SubscriberEvent.onComplete := by
  induction rs generalizing f with
  | nil => exact ⟨0, 0, by omega, by omega, by simp, by simp [Flowable.requestAll, itemsFrom]⟩
  | cons r rest ih =>
    have hreq := flowable_request_eq f r hc hi
    have hout : (f.request r).1 =
        itemsFrom f.emitter.i (min r.toNat (f.emitter.n - f.emitter.i)) ++
          (if f.emitter.i + min r.toNat (f.emitter.n - f.emitter.i) = f.emitter.n then
            [SubscriberEvent.onComplete] else []) := by rw [hreq]
    have hstep : (f.request r).2 =
        { emitter := { f.emitter with
            i := f.emitter.i + min r.toNat (f.emitter.n - f.emitter.i) }
          completed := decide (f.emitter.i + min r.toNat (f.emitter.n - f.emitter.i) =
            f.emitter.n) } := by rw [hreq]
    simp only [Flowable.requestAll, List.flatten_cons, List.map_cons, List.sum_cons, hout]
    by_cases hdone : f.emitter.i + min r.toNat (f.emitter.n - f.emitter.i) = f.emitter.n
    · have hc1 : (f.request r).2.completed = true := by rw [hstep]; simp [hdone]
      refine ⟨min r.toNat (f.emitter.n - f.emitter.i), 1, le_refl _, by omega, by omega, ?_⟩
      rw [(requestAll_completed (f.request r).2 rest hc1).1, if_pos hdone]
      simp
    · have hc1 : (f.request r).2.completed = false := by rw [hstep]; simp [hdone]
      have hi1 : (f.request r).2.emitter.i ≤ (f.request r).2.emitter.n := by
        rw [hstep]; simp only; omega
      obtain ⟨m, k, hk, hm, hsum, hflat⟩ := ih (f.request r).2 hc1 hi1
      have hi2 : (f.request r).2.emitter.i =
          f.emitter.i + min r.toNat (f.emitter.n - f.emitter.i) := by rw [hstep]
      have hn2 : (f.request r).2.emitter.n = f.emitter.n := by rw [hstep]
      rw [hi2, hn2] at hm
      rw [hi2] at hflat
      refine ⟨min r.toNat (f.emitter.n - f.emitter.i) + m, k, hk, by omega, by omega, ?_⟩
      rw [hflat, if_neg hdone, List.append_nil, ← List.append_assoc, itemsFrom_append]

/-- Each demand on a flowable is answered by at most as many items as were requested. -/
theorem requestAll_bound (f : Flowable) (rs : List Int) (hi : f.emitter.i ≤ f.emitter.n) :
    ∀ p ∈ List.zip (f.requestAll rs) rs, countNext p.1 ≤ p.2.toNat := by
  induction rs generalizing f with
  | nil => simp [Flowable.requestAll]
  | cons r rest ih =>
    intro p hp
    simp only [Flowable.requestAll, List.zip_cons_cons, List.mem_cons] at hp
    cases hc : f.completed with
    | true =>
      have hreq : f.request r = ([], f) := by simp [Flowable.request, hc]
      rw [hreq] at hp
      rcases hp with rfl | hp
      · simp [countNext]
      · exact ih f hi p hp
    | false =>
      have hreq := flowable_request_eq f r hc hi
      have hi1 : (f.request r).2.emitter.i ≤ (f.request r).2.emitter.n := by
        rw [hreq]; simp only; omega
      rcases hp with rfl | hp
      · rw [hreq]
        have hcount := (itemsFrom_counts f.emitter.i
          (min r.toNat (f.emitter.n - f.emitter.i))).2.1
        simp only [countNext, List.filter_append] at hcount ⊢
        split <;> simp [SubscriberEvent.isOnNext, hcount]
      · exact ih (f.request r).2 hi1 p hp

/-- With positive demands adding up to what is still missing, a flowable signals the
remaining items up to `n - 1` and then `onComplete`, once. -/
theorem flowable_completes (f : Flowable) (rs : List Int) (hc : f.completed = false)
    (hi : f.emitter.i ≤ f.emitter.n) (hpos : ∀ r ∈ rs, 0 < r) (hne : rs ≠ [])
    (hsum : f.emitter.n - f.emitter.i ≤ (rs.map Int.toNat).sum) :
    (f.requestAll rs).flatten =
      itemsFrom f.emitter.i (f.emitter.n - f.emitter.i) ++ [SubscriberEvent.onComplete] := by
  induction rs generalizing f with
  | nil => exact absurd rfl hne
  | cons r rest ih =>
    have hreq := flowable_request_eq f r hc hi
    have hout : (f.request r).1 =
        itemsFrom f.emitter.i (min r.toNat (f.emitter.n - f.emitter.i)) ++
          (if f.emitter.i + min r.toNat (f.emitter.n - f.emitter.i) = f.emitter.n then
            [SubscriberEvent.onComplete] else []) := by rw [hreq]
    have hstep : (f.request r).2 =
        { emitter := { f.emitter with
            i := f.emitter.i + min r.toNat (f.emitter.n - f.emitter.i) }
          completed := decide (f.emitter.i + min r.toNat (f.emitter.n - f.emitter.i) =
            f.emitter.n) } := by rw [hreq]
    have hr : 0 < r := hpos r (List.mem_cons_self _ _)
    simp only [List.map_cons, List.sum_cons] at hsum
    simp only [Flowable.requestAll, List.flatten_cons, hout]
    by_cases hdone : f.emitter.i + min r.toNat (f.emitter.n - f.emitter.i) = f.emitter.n
    · have hc1 : (f.request r).2.completed = true := by rw [hstep]; simp [hdone]
      have hm : min r.toNat (f.emitter.n - f.emitter.i) = f.emitter.n - f.emitter.i := by
        omega
      rw [(requestAll_completed (f.request r).2 rest hc1).1, if_pos hdone, hm]
      simp
    · have hc1 : (f.request r).2.completed = false := by rw [hstep]; simp [hdone]
      have hi1 : (f.request r).2.emitter.i ≤ (f.request r).2.emitter.n := by
        rw [hstep]; simp only; omega
      have hi2 : (f.request r).2.emitter.i = f.emitter.i + r.toNat := by
        rw [hstep]; simp only; omega
      have hn2 : (f.request r).2.emitter.n = f.emitter.n := by rw [hstep]
      have hrest : rest ≠ [] := by
        intro hnil
        rw [hnil] at hsum
        simp at hsum
        omega
      have hm : min r.toNat (f.emitter.n - f.emitter.i) = r.toNat := by omega
      rw [ih (f.request r).2 hc1 hi1 (fun x hx => hpos x (List.mem_cons_of_mem _ hx)) hrest
        (by rw [hn2, hi2]; omega), hn2, hi2, if_neg hdone, List.append_nil, hm,
        ← List.append_assoc, itemsFrom_append]
      rw [show r.toNat + (f.emitter.n - (f.emitter.i + r.toNat)) = f.emitter.n - f.emitter.i by
        omega]

/-- In a run of items followed by `onComplete`s, nothing that follows an `onComplete` is an
`onNext`. -/
theorem nothing_after_complete (first count k : Nat) (pre post : List SubscriberEvent)
    (h : itemsFrom first count ++ List.replicate k SubscriberEvent.onComplete =
      pre ++ SubscriberEvent.onComplete :: post) :
    ∀ e ∈ post, e = SubscriberEvent.onComplete := by
  have hnot := onComplete_not_mem_itemsFrom first count
  rcases List.append_eq_append_iff.1 h with ⟨a, _, ha⟩ | ⟨a, ha, hb⟩
  · intro e he
    have hmem : e ∈ List.replicate k SubscriberEvent.onComplete := by
      rw [ha]
      exact List.mem_append_right _ (List.mem_cons_of_mem _ he)
    exact List.eq_of_mem_replicate hmem
  · cases a with
    | nil =>
      intro e he
      have hmem : e ∈ List.replicate k SubscriberEvent.onComplete := by
        simp only [List.nil_append] at hb
        rw [← hb]
        exact List.mem_cons_of_mem _ he
      exact List.eq_of_mem_replicate hmem
    | cons x rest =>
      simp only [List.cons_append, List.cons.injEq] at hb
      exact absurd (by rw [ha, ← hb.1]; simp) hnot

/-- C22: for every `N` that the conversion of "generate:N" yields, and every non-empty
sequence of positive demands whose sum is at least `N`, the generator built by
`makeTestFlowable` signals exactly `N` `onNext` payloads, the `i`-th (`i = 0 .. N-1`, in
increasing order) with metadata "metadata:i" and data the decimal string of `i`; some
invocation completes the stream: no earlier invocation signals `onComplete`, and that
invocation signals the remaining items up to `N-1` (item `N-1` among them when `N > 0`)
and then `onComplete`.  Through the flowable the subscriber is signalled exactly these `N`
payloads followed by one `onComplete`. -/
theorem generate_stream (toSize : Bytes → Option Nat) (N : Nat) (rs : List Int)
    (hconv : toSize (toString N).toList = some N)
    (hpos : ∀ r ∈ rs, 0 < r) (hne : rs ≠ []) (hsum : (N : Int) ≤ rs.sum) :
    ∃ f, makeTestFlowable toSize ("generate:".toList ++ (toString N).toList) = some f ∧
      (f.emitter.invokeAll rs).flatten.filter SubscriberEvent.isOnNext =
        (List.range N).map (fun i => SubscriberEvent.onNext (testItem i)) ∧
      (∀ i, testItem i =
        { metadata := some ("metadata:" ++ toString i).toList, data := (toString i).toList }) ∧
      (∃ pre r post, rs = pre ++ r :: post ∧
        (∀ out ∈ f.emitter.invokeAll pre, SubscriberEvent.onComplete ∉ out) ∧
        (0 < N → (f.emitter.after pre).i < N) ∧
        ((f.emitter.after pre).invoke r).1 =
          itemsFrom (f.emitter.after pre).i (N - (f.emitter.after pre).i) ++
            [SubscriberEvent.onComplete]) ∧
      (f.requestAll rs).flatten =
        (List.range N).map (fun i => SubscriberEvent.onNext (testItem i)) ++
          [SubscriberEvent.onComplete] := by
  have hnat : N ≤ (rs.map Int.toNat).sum := by
    have h := sum_toNat rs (fun r hr => le_of_lt (hpos r hr))
    omega
  refine ⟨Flowable.create { n := N, i := 0 }, makeTestFlowable_generate toSize _ N hconv, ?_,
    fun _ => rfl,
    completing_invocation { n := N, i := 0 } rs (Nat.zero_le _) hpos hne (by simpa using hnat),
    ?_⟩
  · obtain ⟨k, hk, _⟩ := run_shape { n := N, i := 0 } rs (Nat.zero_le _)
    obtain ⟨_, hafter⟩ := after_eq { n := N, i := 0 } rs (Nat.zero_le _)
    have hN : (Generator.after { n := N, i := 0 } rs).i = N := by
      rw [hafter]
      simp only
      omega
    simp only [Flowable.create]
    rw [hk, hN, (shape_counts 0 (N - 0) k).1, Nat.sub_zero, itemsFrom, List.range_eq_range']
  · have h := flowable_completes (Flowable.create { n := N, i := 0 }) rs rfl (Nat.zero_le _)
      hpos hne (by simpa [Flowable.create] using hnat)
    rw [h]
    simp only [Flowable.create, Nat.sub_zero, itemsFrom, List.range_eq_range']

/-- C22 (instance): "generate:5" with an initial demand of 2 and then a demand of 3: two
payloads and no completion, then the remaining three payloads and `onComplete`. -/
theorem generate_stream_witness :
    toSizeSample (toString 5).toList = some 5 ∧
    (∃ f, makeTestFlowable toSizeSample ("generate:".toList ++ (toString 5).toList) = some f ∧
      (f.emitter.invokeAll [2, 3]).flatten.filter SubscriberEvent.isOnNext =
        (List.range 5).map (fun i => SubscriberEvent.onNext (testItem i)) ∧
      (f.requestAll [2, 3]).flatten =
        (List.range 5).map (fun i => SubscriberEvent.onNext (testItem i)) ++
          [SubscriberEvent.onComplete]) ∧
    Generator.invokeAll { n := 5, i := 0 } [2, 3] =
      [[SubscriberEvent.onNext (testItem 0), SubscriberEvent.onNext (testItem 1)],
       [SubscriberEvent.onNext (testItem 2), SubscriberEvent.onNext (testItem 3),
        SubscriberEvent.onNext (testItem 4), SubscriberEvent.onComplete]] ∧
    Flowable.requestAll (Flowable.create { n := 5, i := 0 }) [2, 3] =
      [[SubscriberEvent.onNext (testItem 0), SubscriberEvent.onNext (testItem 1)],
       [SubscriberEvent.onNext (testItem 2), SubscriberEvent.onNext (testItem 3),
        SubscriberEvent.onNext (testItem 4), SubscriberEvent.onComplete]] := by
  refine ⟨by decide, ?_, by decide, by decide⟩
  obtain ⟨f, h1, h2, _, _, h5⟩ := generate_stream toSizeSample 5 [2, 3] (by decide) (by decide)
    (by decide) (by decide)
  exact ⟨f, h1, h2, h5⟩

/-- C23: demand is never exceeded.  For the generator built by `makeTestFlowable` from any
data and any sequence of invocations with requested amounts `r1, r2, ...` (any prefix of
a longer sequence is such a sequence): the `k`-th invocation signals at most `max(rk, 0)`
items; in total at most the sum of the `max(rk, 0)` and at most `n` items are signalled;
and when no amount is negative, at most the sum of the amounts.  The same bounds hold for
what the subscriber is signalled through the flowable. -/
theorem demand_not_exceeded (toSize : Bytes → Option Nat) (data : Bytes) (f : Flowable)
    (rs : List Int) (hf : makeTestFlowable toSize data = some f) :
    ((∀ p ∈ List.zip (f.emitter.invokeAll rs) rs, countNext p.1 ≤ p.2.toNat) ∧
      countNext (f.emitter.invokeAll rs).flatten ≤ (rs.map Int.toNat).sum ∧
      countNext (f.emitter.invokeAll rs).flatten ≤ f.emitter.n ∧
      ((∀ r ∈ rs, 0 ≤ r) → (countNext (f.emitter.invokeAll rs).flatten : Int) ≤ rs.sum)) ∧
    ((∀ p ∈ List.zip (f.requestAll rs) rs, countNext p.1 ≤ p.2.toNat) ∧
      countNext (f.requestAll rs).flatten ≤ (rs.map Int.toNat).sum ∧
      countNext (f.requestAll rs).flatten ≤ f.emitter.n ∧
      ((∀ r ∈ rs, 0 ≤ r) → (countNext (f.requestAll rs).flatten : Int) ≤ rs.sum)) := by
  obtain ⟨h0, hc⟩ := makeTestFlowable_start toSize data f hf
  have hi : f.emitter.i ≤ f.emitter.n := by rw [h0]; exact Nat.zero_le _
  constructor
  · obtain ⟨k, hk, _⟩ := run_shape f.emitter rs hi
    obtain ⟨_, hafter⟩ := after_eq f.emitter rs hi
    have hcount : countNext (f.emitter.invokeAll rs).flatten =
        (f.emitter.after rs).i - f.emitter.i := by
      rw [hk]
      exact (shape_counts _ _ k).2.1
    refine ⟨invokeAll_bound f.emitter rs hi, ?_, ?_, fun hnn => ?_⟩
    · rw [hcount, hafter]; omega
    · rw [hcount, hafter]; omega
    · have hs := sum_toNat rs hnn
      have hle : countNext (f.emitter.invokeAll rs).flatten ≤ (rs.map Int.toNat).sum := by
        rw [hcount, hafter]; omega
      omega
  · obtain ⟨m, k, _, hm, hsum, hflat⟩ := flowable_shape f rs hc hi
    have hcount : countNext (f.requestAll rs).flatten = m := by
      rw [hflat]
      exact (shape_counts _ _ k).2.1
    refine ⟨requestAll_bound f rs hi, ?_, ?_, fun hnn => ?_⟩
    · rw [hcount]; exact hsum
    · rw [hcount]; omega
    · have hs := sum_toNat rs hnn
      rw [hcount]
      omega

/-- C23 (instance): "generate:5" with demands 2, -1, 1. -/
theorem demand_not_exceeded_witness :
    makeTestFlowable toSizeSample "generate:5".toList =
      some (Flowable.create { n := 5, i := 0 }) ∧
    countNext (Generator.invokeAll { n := 5, i := 0 } [2, -1, 1]).flatten ≤
      ([2, -1, 1].map Int.toNat).sum ∧
    countNext (Generator.invokeAll { n := 5, i := 0 } [2, -1, 1]).flatten = 3 :=
  ⟨by decide,
    (demand_not_exceeded toSizeSample "generate:5".toList
      (Flowable.create { n := 5, i := 0 }) [2, -1, 1] (by decide)).1.2.1,
    by decide⟩

/-- C24: exactly one terminal event per stream.  For the flowable built by
`makeTestFlowable` from any data and every sequence of demands delivered to it,
`onComplete` is signalled to the subscriber at most once, and everything signalled is a
run of items `0, 1, ...` followed by that `onComplete`, if any: whatever follows an
`onComplete` is not an `onNext` (indeed nothing follows it). -/
theorem completion_signals (toSize : Bytes → Option Nat) (data : Bytes) (f : Flowable)
    (rs : List Int) (hf : makeTestFlowable toSize data = some f) :
    countComplete (f.requestAll rs).flatten ≤ 1 ∧
    (∃ m, m ≤ f.emitter.n ∧
      ((f.requestAll rs).flatten =
          (List.range m).map (fun i => SubscriberEvent.onNext (testItem i)) ∨
        (f.requestAll rs).flatten =
          (List.range m).map (fun i => SubscriberEvent.onNext (testItem i)) ++
            [SubscriberEvent.onComplete])) ∧
    (∀ pre post, (f.requestAll rs).flatten = pre ++ SubscriberEvent.onComplete :: post →
      post = []) := by
  obtain ⟨h0, hc⟩ := makeTestFlowable_start toSize data f hf
  have hi : f.emitter.i ≤ f.emitter.n := by rw [h0]; exact Nat.zero_le _
  obtain ⟨m, k, hk, hm, _, hflat⟩ := flowable_shape f rs hc hi
  rw [h0] at hflat hm
  refine ⟨?_, ⟨m, by omega, ?_⟩, ?_⟩
  · rw [hflat, (shape_counts 0 m k).2.2]
    exact hk
  · rw [hflat, itemsFrom, List.range_eq_range']
    have hk01 : k = 0 ∨ k = 1 := by omega
    rcases hk01 with rfl | rfl
    · left; simp
    · right; rfl
  · intro pre post hsplit
    rw [hflat] at hsplit
    have hall := nothing_after_complete 0 m k pre post hsplit
    have hcount : countComplete (pre ++ SubscriberEvent.onComplete :: post) = k := by
      rw [← hsplit]
      exact (shape_counts 0 m k).2.2
    cases post with
    | nil => rfl
    | cons e rest =>
      have he : e = SubscriberEvent.onComplete := hall e (List.mem_cons_self _ _)
      rw [he] at hcount
      simp only [countComplete, List.count_append, List.count_cons_self] at hcount
      omega

/-- C24 (instance): "generate:5" with demands 5 and then 1: the first demand brings the
five items and `onComplete`, the second nothing. -/
theorem completion_signals_witness :
    makeTestFlowable toSizeSample "generate:5".toList =
      some (Flowable.create { n := 5, i := 0 }) ∧
    Flowable.requestAll (Flowable.create { n := 5, i := 0 }) [5, 1] =
      [[SubscriberEvent.onNext (testItem 0), SubscriberEvent.onNext (testItem 1),
        SubscriberEvent.onNext (testItem 2), SubscriberEvent.onNext (testItem 3),
        SubscriberEvent.onNext (testItem 4), SubscriberEvent.onComplete], []] ∧
    countComplete (Flowable.requestAll (Flowable.create { n := 5, i := 0 }) [5, 1]).flatten
      ≤ 1 :=
  ⟨by decide, by decide,
    (completion_signals toSizeSample "generate:5".toList
      (Flowable.create { n := 5, i := 0 }) [5, 1] (by decide)).1⟩

end Rocket
